import Mathlib

/-!
# The process-wide workspace registry of `caffe2/python/pybind_state.cc`

A shallow embedding of the Python binding layer of Caffe2: the three globals
`gWorkspaces`, `gWorkspace` and `gCurrentWorkspaceName`, the functions that
switch, reset and tear down workspaces, the blob accessors `has_blob`,
`blobs`, `fetch_blob`, `feed_blob`, the listing `registered_operators`, the
binding `get_gradient_defs`, and the two numpy type tables `CaffeToNumpyType`
and `NumpyTypeToCaffe`.

Conventions of the embedding.

* A `std::string` that names something (a workspace, a blob, an operator, a
  type, a message) is a `String`. A `std::string` that carries data (the
  contents of a string blob, a root folder) is a `ByteString`, a list of bytes.
  A Python byte string, on which `PyString_Check` holds, is `PyObject.bytes`;
  a Python text object, as `py::str` builds it by UTF-8 decoding, is
  `PyObject.str`. A name is a text, so `py::str` of a `std::string` put
  together from names is that text; `py::str` of data is a parameter of the
  model, because it throws on bytes it cannot decode.
* A `std::map<std::string, V>` is an association list in key order, read with
  `mapFind` and written with `mapInsert`, `mapReplace`, `mapAssign`,
  `mapTouch`.
* A non-null `std::unique_ptr<Workspace>` is a `Slot`: the address of the heap
  object together with the object it owns; a null one is `none`. A raw
  `Workspace*` is an `Option Nat` (`none` is `nullptr`). Following a raw
  pointer searches the slots for its address; a pointer whose address is owned
  by no slot is dangling.
* A binding that returns a C++ value is modelled up to that value; a binding
  that builds its Python result itself returns a `PyObject`.
* Every binding returns its outcome together with the state it leaves behind,
  because an exception does not undo the writes made before it was thrown.
-/

namespace Caffe2

/-! ## Ordered containers -/

/-- Lookup of key `k` in a `std::map` (`find`, `count`, `operator[]` on a present key). -/
def mapFind {β : Type} : List (String × β) → String → Option β
  | [], _ => none
  | (k', v) :: rest, k => if k' = k then some v else mapFind rest k

/-- Ordered insertion `m.insert(std::make_pair(k, v))`; a key already present keeps its value. -/
def mapInsert {β : Type} : List (String × β) → String → β → List (String × β)
  | [], k, v => [(k, v)]
  | (k', v') :: rest, k, v =>
    if k < k' then (k, v) :: (k', v') :: rest
    else if k' = k then (k', v') :: rest
    else (k', v') :: mapInsert rest k v

/-- Overwrite the value stored under the present key `k`, keeping the node in place. -/
def mapReplace {β : Type} : List (String × β) → String → β → List (String × β)
  | [], _, _ => []
  | (k', v') :: rest, k, v =>
    if k' = k then (k', v) :: rest else (k', v') :: mapReplace rest k v

/-- The effect of `m[k] = v`: `operator[]` finds the node of `k`, or inserts one, and the
value is stored in it. -/
def mapAssign {β : Type} (m : List (String × β)) (k : String) (v : β) : List (String × β) :=
  if (mapFind m k).isSome then mapReplace m k v else mapInsert m k v

/-- The effect of evaluating `m[k]` alone: a missing key is inserted with the
default-constructed value `dflt`, a present key is left as it is. -/
def mapTouch {β : Type} (m : List (String × β)) (k : String) (dflt : β) : List (String × β) :=
  if (mapFind m k).isSome then m else mapInsert m k dflt

/-- Keys of a `std::map` in iteration order. -/
def mapKeys {β : Type} (m : List (String × β)) : List String :=
  m.map Prod.fst

/-- Insertion `s.insert(k)` into a `std::set<std::string>`, a strictly increasing list. -/
def setInsert : List String → String → List String
  | [], k => [k]
  | k' :: rest, k =>
    if k < k' then k :: k' :: rest
    else if k' = k then k' :: rest
    else k' :: setInsert rest k

/-! ## Failures and Python values -/

/-- The ways a binding can stop without returning a value. -/
inductive Failure
  /-- An `EnforceNotMet` raised by `CAFFE_ENFORCE(cond, msg...)` or `CAFFE_THROW(msg...)`. -/
  | enforce (cond : String) (msg : String)
  /-- The `TypeMismatch` of `Blob::Get<T>()` on a blob of another type. -/
  | typeMismatch
  /-- A null or dangling `Workspace*` was followed: C++ defines no behaviour here. -/
  | invalidPointer
  /-- The `pybind11::cast_error` of `obj.cast<T>()` on an object that does not convert. -/
  | cast_error
  /-- The exception of `py::str(std::string)` on bytes that are not UTF-8. -/
  | decodeError
  deriving DecidableEq, Repr

/-- The bytes of a `std::string` that carries data. -/
abbrev ByteString := List UInt8

/-- Strict UTF-8 decoding, one byte at a time. `need` continuation bytes are still due for
the code point whose leading bits are `acc`; `low` is the least code point that takes this
many bytes, so that over-long forms are refused, as are surrogates and code points above
`0x10FFFF`. -/
def utf8DecodeFrom : Nat → Nat → Nat → List UInt8 → Option (List Char)
  | 0, _, _, [] => some []
  | _ + 1, _, _, [] => none
  | 0, _, _, b :: rest =>
    if b.toNat < 0x80 then
      (utf8DecodeFrom 0 0 0 rest).map (fun cs => Char.ofNat b.toNat :: cs)
    else if 0xC0 ≤ b.toNat ∧ b.toNat < 0xE0 then utf8DecodeFrom 1 (b.toNat - 0xC0) 0x80 rest
    else if 0xE0 ≤ b.toNat ∧ b.toNat < 0xF0 then utf8DecodeFrom 2 (b.toNat - 0xE0) 0x800 rest
    else if 0xF0 ≤ b.toNat ∧ b.toNat < 0xF8 then
      utf8DecodeFrom 3 (b.toNat - 0xF0) 0x10000 rest
    else none
  | need + 1, acc, low, b :: rest =>
    if 0x80 ≤ b.toNat ∧ b.toNat < 0xC0 then
      match need with
      | 0 =>
        if low ≤ acc * 64 + (b.toNat - 0x80) ∧
            Nat.isValidChar (acc * 64 + (b.toNat - 0x80)) then
          (utf8DecodeFrom 0 0 0 rest).map
            (fun cs => Char.ofNat (acc * 64 + (b.toNat - 0x80)) :: cs)
        else none
      | k + 1 => utf8DecodeFrom (k + 1) (acc * 64 + (b.toNat - 0x80)) low rest
    else none

/-- The text that `bytes` encode in UTF-8, if they encode one. -/
def utf8Decode (bytes : ByteString) : Option String :=
  (utf8DecodeFrom 0 0 0 bytes).map String.mk

/-- The UTF-8 encoding of a text: the bytes of `text.cast<std::string>()`. -/
def utf8Encode (text : String) : ByteString :=
  text.data.flatMap String.utf8EncodeChar

/-- A numpy array as seen through `PyArrayObject*`. -/
structure PyArrayObject where
  typenum : Int
  dims : List Nat
  data : List Nat
  deriving DecidableEq, Repr

/-- The Python objects the bindings distinguish: `None`, a bool, a byte string (the objects
on which `PyString_Check` holds), a text object (what `py::str` builds), a numpy array (the
objects on which `PyArray_Check` holds), and the rest. -/
inductive PyObject
  | none
  | bool (b : Bool)
  | bytes (b : ByteString)
  | str (s : String)
  | ndarray (a : PyArrayObject)
  | other (tag : Nat)
  deriving DecidableEq, Repr

/-- The conversion `obj.cast<std::string>()`: a byte string gives its bytes, a text object
its UTF-8 encoding, and any other object makes the cast throw. -/
def castStdString : PyObject → Option ByteString
  | .bytes b => some b
  | .str text => some (utf8Encode text)
  | _ => none

/-- The Python argument that passes the root folder `root`; `none` is `None`, which is also
the value of an omitted argument. -/
def rootFolderArg : Option ByteString → PyObject
  | none => PyObject.none
  | some root => PyObject.bytes root

/-! ## Blobs and workspaces -/

/-- Runtime type identifiers `TypeMeta::Id<T>()` of the types this file names; `other k`
stands for any further C++ type, `uninitialized` for a default-constructed `TypeMeta`. -/
inductive CaffeTypeId
  | uninitialized
  | bool | double | float | float16
  | int | int8_t | int16_t | int64_t | uint8_t | uint16_t
  | string
  | tensorCPU
  | other (k : Nat)
  deriving DecidableEq, Repr

/-- A CPU tensor: its shape, its element type and its raw contents. -/
structure TensorCPU where
  dims : List Nat
  elem : CaffeTypeId
  data : List Nat
  deriving DecidableEq, Repr

/-- Modelled from the spec: the `Blob` class (`caffe2/core/blob.h` is not among the sources),
the spec's TypedValue: a slot holding at most one value of a runtime-determined type. -/
inductive Blob
  | empty
  | string (s : ByteString)
  | tensorCPU (t : TensorCPU)
  | native (k : Nat)
  deriving DecidableEq, Repr

/-- The type identifier `blob.meta().id()`. -/
def Blob.id : Blob → CaffeTypeId
  | .empty => .uninitialized
  | .string _ => .string
  | .tensorCPU _ => .tensorCPU
  | .native k => .other k

/-- Modelled from the spec: `GetMutable<std::string>()` "allocates/overwrites to type T if
not already T, else returns existing". -/
def Blob.GetMutableString : Blob → Blob
  | .string s => .string s
  | _ => .string []

/-- The assignment `*p = v` through the pointer returned by `GetMutable<std::string>()`. -/
def Blob.storeString (v : ByteString) : Blob → Blob
  | .string _ => .string v
  | b => b

/-- Modelled from the spec: `Get<std::string>()` "fails with TypeMismatch if current
type ≠ T". -/
def Blob.GetString : Blob → Except Failure ByteString
  | .string s => .ok s
  | _ => .error .typeMismatch

/-- A compiled net, kept as the definition it was created from. -/
structure NetBase where
  netDef : String
  deriving DecidableEq, Repr

/-- Modelled from the spec: the `Workspace` class (`caffe2/core/workspace.h` is not among
the sources), the spec's Namespace: a map from names to blobs and a map from names to nets.
`root_folder` is `none` for a workspace built by `Workspace()`. -/
structure Workspace where
  root_folder : Option ByteString
  blob_map : List (String × Blob)
  net_map : List (String × NetBase)
  deriving DecidableEq, Repr

/-- The constructors `Workspace()` and `Workspace(root_folder)`: a brand-new, empty
workspace. -/
def Workspace.create (root_folder : Option ByteString) : Workspace :=
  { root_folder := root_folder, blob_map := [], net_map := [] }

/-- The query `HasBlob(name)`. -/
def Workspace.HasBlob (ws : Workspace) (name : String) : Bool :=
  (mapFind ws.blob_map name).isSome

/-- The query `GetBlob(name)`; `none` is the null pointer returned for a missing name. -/
def Workspace.GetBlob (ws : Workspace) (name : String) : Option Blob :=
  mapFind ws.blob_map name

/-- Modelled from the spec: `CreateBlob(name)` "inserts name with a fresh empty TypedValue if
absent; returns existing handle if present". -/
def Workspace.CreateBlob (ws : Workspace) (name : String) : Workspace :=
  if ws.HasBlob name then ws
  else { ws with blob_map := mapInsert ws.blob_map name Blob.empty }

/-- A write through the `Blob*` handle of `name`. -/
def Workspace.putBlob (ws : Workspace) (name : String) (b : Blob) : Workspace :=
  { ws with blob_map := mapReplace ws.blob_map name b }

/-- The listing `Blobs()`. -/
def Workspace.Blobs (ws : Workspace) : List String :=
  mapKeys ws.blob_map

/-- The listing `Nets()`. -/
def Workspace.Nets (ws : Workspace) : List String :=
  mapKeys ws.net_map

/-! ## The globals -/

/-- A non-null `std::unique_ptr<Workspace>`: it owns `ws`, allocated at address `addr`. -/
structure Slot where
  addr : Nat
  ws : Workspace
  deriving DecidableEq, Repr

/-- The static state of the module: `gWorkspaces`, `gWorkspace`, `gCurrentWorkspaceName`
and the function-local `static bool initialized`. A key of `gWorkspaces` bound to `none`
holds a null `unique_ptr`. -/
structure State where
  gWorkspaces : List (String × Option Slot)
  gWorkspace : Option Nat
  gCurrentWorkspaceName : String
  initialized : Bool
  deriving DecidableEq, Repr

/-- The state right after the statics are constructed: an empty map, `nullptr`, `""`. -/
def State.start : State :=
  { gWorkspaces := [], gWorkspace := none, gCurrentWorkspaceName := "", initialized := false }

/-- Largest address in a list of slots, at least `b`. -/
def maxAddr (b : Nat) : List (String × Option Slot) → Nat
  | [] => b
  | (_, none) :: rest => maxAddr b rest
  | (_, some sl) :: rest => max sl.addr (maxAddr b rest)

/-- The address returned by the next `new Workspace(...)`: distinct from the address of
every live workspace (and from the value held in `gWorkspace`). -/
def State.freshAddr (s : State) : Nat :=
  maxAddr (s.gWorkspace.getD 0) s.gWorkspaces + 1

/-- The slot that owns address `a`, if the object at `a` is still alive. -/
def slotAt (a : Nat) : List (String × Option Slot) → Option Slot
  | [] => none
  | (_, none) :: rest => slotAt a rest
  | (_, some sl) :: rest => if sl.addr = a then some sl else slotAt a rest

/-- Following `gWorkspace`: the workspace it points to, when it points to a live one. -/
def State.deref (s : State) : Except Failure Workspace :=
  match s.gWorkspace with
  | none => .error .invalidPointer
  | some a =>
    match slotAt a s.gWorkspaces with
    | some sl => .ok sl.ws
    | none => .error .invalidPointer

/-- Store `ws` in the object at address `a`. -/
def writeAt (a : Nat) (ws : Workspace) :
    List (String × Option Slot) → List (String × Option Slot)
  | [] => []
  | (k, none) :: rest => (k, none) :: writeAt a ws rest
  | (k, some sl) :: rest =>
    if sl.addr = a then (k, some { sl with ws := ws }) :: rest
    else (k, some sl) :: writeAt a ws rest

/-- A write through `gWorkspace`. -/
def State.write (s : State) (ws : Workspace) : State :=
  match s.gWorkspace with
  | none => s
  | some a => { s with gWorkspaces := writeAt a ws s.gWorkspaces }

/-! ## Registries and protocol buffers -/

/-- The `DeviceOption` message; a default-constructed one names the CPU. -/
structure DeviceOption where
  device_type : Int
  cuda_gpu_id : Int
  deriving DecidableEq, Repr

/-- The device type `CPU` of the `DeviceType` enumeration. -/
def CPU : Int := 0

/-- The value of `DeviceOption option;`. -/
def DeviceOption.default : DeviceOption :=
  { device_type := CPU, cuda_gpu_id := 0 }

/-- A registered `BlobFetcherBase`: its virtual `Fetch(const Blob&)`, which may throw. -/
structure BlobFetcherBase where
  Fetch : Blob → Except Failure PyObject

/-- A registered `BlobFeederBase`: its virtual `Feed(option, array, blob)`, which returns
the blob as it leaves it and may throw. -/
structure BlobFeederBase where
  Feed : DeviceOption → PyArrayObject → Blob → Except Failure Unit × Blob

/-- A constructor `py::str(const std::string&)` that decodes strictly: the text object that
the bytes encode in UTF-8; it throws when they encode none. -/
def pyStr (bytes : ByteString) : Except Failure PyObject :=
  match utf8Decode bytes with
  | some text => .ok (PyObject.str text)
  | none => .error .decodeError

/-- What this translation unit takes from the rest of the program: the protobuf parser of
`DeviceOption`, the printable type names of `TypeMeta`, the constructor
`py::str(const std::string&)` of pybind11, which builds a Python text object from bytes and
may throw, the classes `TensorFetcher<CPUContext>` and `TensorFeeder<CPUContext>` of
`pybind_state.h`, and the fetchers and feeders registered by other translation units. -/
structure Env where
  ParseDeviceOption : String → Option DeviceOption
  typeName : CaffeTypeId → String
  py_str : ByteString → Except Failure PyObject
  TensorFetcherCPU : BlobFetcherBase
  TensorFeederCPU : BlobFeederBase
  moreFetchers : List (CaffeTypeId × BlobFetcherBase)
  moreFeeders : List (Int × BlobFeederBase)

/-- The class `StringFetcher`: `py::str(blob.Get<string>())`. -/
def StringFetcher (env : Env) : BlobFetcherBase :=
  { Fetch := fun blob =>
      match blob.GetString with
      | .ok s => env.py_str s
      | .error e => .error e }

/-- The constructor `py::str` of `env` decodes UTF-8: on bytes that encode a text it returns
that text. -/
def Env.DecodesUTF8 (env : Env) : Prop :=
  ∀ (bytes : ByteString) (text : String),
    utf8Decode bytes = some text → env.py_str bytes = .ok (PyObject.str text)

/-- The registry `BlobFetcherRegistry`: the two `REGISTER_BLOB_FETCHER` lines of this file
followed by the registrations made elsewhere. -/
def BlobFetcherRegistry (env : Env) : List (CaffeTypeId × BlobFetcherBase) :=
  (CaffeTypeId.tensorCPU, env.TensorFetcherCPU) :: (CaffeTypeId.string, StringFetcher env)
    :: env.moreFetchers

/-- The registry `BlobFeederRegistry`: `REGISTER_BLOB_FEEDER(CPU, TensorFeeder<CPUContext>)`
followed by the registrations made elsewhere. -/
def BlobFeederRegistry (env : Env) : List (Int × BlobFeederBase) :=
  (CPU, env.TensorFeederCPU) :: env.moreFeeders

/-- Lookup in a typed registry; `none` is the empty `unique_ptr` of a missing key. -/
def registryCreate {κ β : Type} [DecidableEq κ] : List (κ × β) → κ → Option β
  | [], _ => none
  | (k', v) :: rest, k => if k' = k then some v else registryCreate rest k

/-- The factory `CreateFetcher(id)`. -/
def CreateFetcher (env : Env) (id : CaffeTypeId) : Option BlobFetcherBase :=
  registryCreate (BlobFetcherRegistry env) id

/-- The factory `CreateFeeder(device_type)`. -/
def CreateFeeder (env : Env) (device_type : Int) : Option BlobFeederBase :=
  registryCreate (BlobFeederRegistry env) device_type

/-! ## Workspace selection -/

/-- The function `switchWorkspaceInternal(name, create_if_missing)`. -/
def switchWorkspaceInternal (name : String) (create_if_missing : Bool) (s : State) :
    Except Failure Unit × State :=
  match mapFind s.gWorkspaces name with
  | some ptr =>
    (.ok (), { s with gCurrentWorkspaceName := name, gWorkspace := ptr.map Slot.addr })
  | none =>
    if create_if_missing then
      let a := s.freshAddr
      (.ok (), { s with
        gWorkspace := some a
        gWorkspaces :=
          mapInsert s.gWorkspaces name (some { addr := a, ws := Workspace.create none })
        gCurrentWorkspaceName := name })
    else (.error (.enforce "create_if_missing" ""), s)

/-- The binding `switch_workspace(name, create_if_missing = None)` for `create_if_missing`
either `None` or a Python bool; `none` is `None`, which is also the value of an omitted
argument. -/
def switch_workspace (name : String) (create_if_missing : Option Bool) (s : State) :
    Except Failure Unit × State :=
  match create_if_missing with
  | none => switchWorkspaceInternal name false s
  | some b => switchWorkspaceInternal name b s

/-- The binding `switch_workspace` for an arbitrary object `create_if_missing`, given the
conversion `castBool` that `create_if_missing.cast<bool>()` performs. The cast is evaluated
before `switchWorkspaceInternal` is entered, so a cast that throws leaves the state as it
was. -/
def switch_workspace_object (castBool : PyObject → Option Bool) (name : String)
    (create_if_missing : PyObject) (s : State) : Except Failure Unit × State :=
  match create_if_missing with
  | .none => switch_workspace name none s
  | obj =>
    match castBool obj with
    | some b => switch_workspace name (some b) s
    | none => (.error .cast_error, s)

/-- The last statement of `reset_workspace`, once the map is `m`:
`gWorkspace = gWorkspaces[gCurrentWorkspaceName].get(); return true;`. -/
def rebindCurrent (m : List (String × Option Slot)) (s : State) : Except Failure Bool × State :=
  (.ok true,
    { s with
      gWorkspaces := m
      gWorkspace :=
        match mapFind m s.gCurrentWorkspaceName with
        | some (some sl) => some sl.addr
        | _ => none })

/-- The binding `reset_workspace(root_folder = None)` for an arbitrary object `root_folder`.
In `gWorkspaces[gCurrentWorkspaceName].reset(new Workspace(root_folder.cast<std::string>()))`
the subscript is evaluated first: when the cast throws, a current name that was not a key has
already been inserted with a null pointer, and nothing else has been written. -/
def reset_workspace (root_folder : PyObject) (s : State) : Except Failure Bool × State :=
  let a := s.freshAddr
  match root_folder with
  | .none =>
    rebindCurrent
      (mapAssign s.gWorkspaces s.gCurrentWorkspaceName
        (some { addr := a, ws := Workspace.create none })) s
  | obj =>
    match castStdString obj with
    | some r =>
      rebindCurrent
        (mapAssign s.gWorkspaces s.gCurrentWorkspaceName
          (some { addr := a, ws := Workspace.create (some r) })) s
    | none =>
      (.error .cast_error,
        { s with gWorkspaces := mapTouch s.gWorkspaces s.gCurrentWorkspaceName none })

/-- The binding `on_module_exit()`: `gWorkspaces.clear()`. -/
def on_module_exit (s : State) : Except Failure Unit × State :=
  (.ok (), { s with gWorkspaces := [] })

/-- The lambda run once when the module is loaded. -/
def moduleInit (s : State) : State :=
  if s.initialized then s
  else
    match switchWorkspaceInternal "default" true s with
    | (.ok _, s1) => { s1 with gCurrentWorkspaceName := "default", initialized := true }
    | (.error _, s1) => s1

/-- The binding `current_workspace()`. -/
def current_workspace (s : State) : String :=
  s.gCurrentWorkspaceName

/-- The binding `workspaces()`. -/
def workspaces (s : State) : List String :=
  mapKeys s.gWorkspaces

/-! ## Operations on the current workspace -/

/-- The guard `CAFFE_ENFORCE(gWorkspace)` followed by a use of `*gWorkspace`. -/
def enforceWorkspace (s : State) : Except Failure Workspace :=
  match s.gWorkspace with
  | none => .error (.enforce "gWorkspace" "")
  | some _ => s.deref

/-- The binding `root_folder()`. -/
def root_folder (s : State) : Except Failure (Option ByteString) :=
  match enforceWorkspace s with
  | .ok ws => .ok ws.root_folder
  | .error e => .error e

/-- The binding `blobs()`. -/
def blobs (s : State) : Except Failure (List String) :=
  match enforceWorkspace s with
  | .ok ws => .ok ws.Blobs
  | .error e => .error e

/-- The binding `has_blob(name)`. -/
def has_blob (name : String) (s : State) : Except Failure Bool :=
  match enforceWorkspace s with
  | .ok ws => .ok (ws.HasBlob name)
  | .error e => .error e

/-- The binding `nets()`, which follows `gWorkspace` without a guard. -/
def nets (s : State) : Except Failure (List String) :=
  match s.deref with
  | .ok ws => .ok ws.Nets
  | .error e => .error e

/-- The binding `create_blob(name)`. -/
def create_blob (name : String) (s : State) : Except Failure Bool × State :=
  match enforceWorkspace s with
  | .ok ws => (.ok true, s.write (ws.CreateBlob name))
  | .error e => (.error e, s)

/-- The binding `fetch_blob(name)`. -/
def fetch_blob (env : Env) (name : String) (s : State) : Except Failure PyObject :=
  match s.deref with
  | .error e => .error e
  | .ok ws =>
    if ws.HasBlob name then
      match ws.GetBlob name with
      | none => .error .invalidPointer
      | some blob =>
        match CreateFetcher env blob.id with
        | some fetcher => fetcher.Fetch blob
        | none =>
          .ok (PyObject.str
            (name ++ ", a C++ native class of type " ++ env.typeName blob.id ++ "."))
    else .error (.enforce "gWorkspace->HasBlob(name)" ("Can't find blob: " ++ name))

/-- The binding `feed_blob(name, arg, device_option = None)`, for `device_option` either
`None` or the bytes of a serialized `DeviceOption`. -/
def feed_blob (env : Env) (name : String) (arg : PyObject) (device_option : Option String)
    (s : State) : Except Failure Bool × State :=
  let parsed : Option DeviceOption :=
    match device_option with
    | none => some DeviceOption.default
    | some bytes => env.ParseDeviceOption bytes
  match parsed with
  | none =>
    (.error (.enforce
      "option.ParseFromString( py::bytes(device_option).cast<std::string>())" ""), s)
  | some option =>
    match s.deref with
    | .error e => (.error e, s)
    | .ok ws =>
      let ws1 := ws.CreateBlob name
      match ws1.GetBlob name with
      | none => (.error .invalidPointer, s.write ws1)
      | some blob =>
        match arg with
        | .ndarray array =>
          match CreateFeeder env option.device_type with
          | none =>
            (.error (.enforce "feeder" "Unknown device type encountered in FeedBlob."),
              s.write ws1)
          | some feeder =>
            match feeder.Feed option array blob with
            | (.ok _, blob1) => (.ok true, s.write (ws1.putBlob name blob1))
            | (.error e, blob1) => (.error e, s.write (ws1.putBlob name blob1))
        | .bytes v =>
          (.ok true, s.write (ws1.putBlob name (blob.GetMutableString.storeString v)))
        | _ =>
          (.error (.enforce ""
            ("Unexpected type of argument - only numpy array or string are " ++
              "supported for feeding")), s.write ws1)

/-! ## Operator listing -/

/-- The binding `registered_operators()`, given the `Keys()` of the CPU and of the CUDA
operator registry. -/
def registered_operators (cpuKeys cudaKeys : List String) : List String :=
  let all_keys := cudaKeys.foldl setInsert (cpuKeys.foldl setInsert [])
  all_keys.foldl (fun keys key => keys ++ [key]) []

/-! ## Call sequences -/

/-- A call of one of the three bindings that change which workspaces exist, with arbitrary
Python objects for the optional arguments. -/
inductive Call
  | switch_workspace (name : String) (create_if_missing : PyObject)
  | reset_workspace (root_folder : PyObject)
  | on_module_exit
  deriving DecidableEq, Repr

/-- The state a call leaves behind, whether it returns or throws. -/
def Call.run (castBool : PyObject → Option Bool) : Call → State → State
  | .switch_workspace name c, s => (Caffe2.switch_workspace_object castBool name c s).2
  | .reset_workspace r, s => (Caffe2.reset_workspace r s).2
  | .on_module_exit, s => (Caffe2.on_module_exit s).2

/-- The state after a sequence of calls, made in order. -/
def runCalls (castBool : PyObject → Option Bool) : List Call → State → State
  | [], s => s
  | c :: cs, s => runCalls castBool cs (c.run castBool s)

/-- The conversion to `bool` that accepts the two Python bools only. -/
def castBoolStrict : PyObject → Option Bool
  | .bool b => some b
  | _ => none

/-- The state of a freshly loaded module. -/
def State.loaded : State :=
  moduleInit State.start

/-- The current workspace name is a key of `gWorkspaces` and `gWorkspace` points to
the workspace stored under that key. -/
def State.CurrentBound (s : State) : Prop :=
  ∃ sl, mapFind s.gWorkspaces s.gCurrentWorkspaceName = some (some sl) ∧
    s.gWorkspace = some sl.addr ∧ s.deref = .ok sl.ws

/-- The current workspace name is a key of `gWorkspaces` bound to a null pointer, and
`gWorkspace` is null as well. -/
def State.CurrentNull (s : State) : Prop :=
  mapFind s.gWorkspaces s.gCurrentWorkspaceName = some none ∧ s.gWorkspace = none

/-- The map `gWorkspaces` holds no workspace: it is empty, or its only entry binds the
current workspace name to a null pointer. -/
def State.TornDown (s : State) : Prop :=
  s.gWorkspaces = [] ∨ s.gWorkspaces = [(s.gCurrentWorkspaceName, none)]

/-! ## A sample build -/

/-- A CPU-only build in which no other translation unit registers a fetcher or a feeder. Its
parser accepts the empty message only; its `py::str` decodes UTF-8 strictly; its tensor
fetcher and feeder handle `float` data (numpy type number 11) and reject every other element
type. -/
def Env.cpuOnly : Env :=
  { ParseDeviceOption := fun bytes => if bytes = "" then some DeviceOption.default else none
    py_str := pyStr
    typeName := fun id =>
      match id with
      | .uninitialized => "nullptr (uninitialized)"
      | .string => "std::string"
      | .tensorCPU => "caffe2::Tensor<caffe2::CPUContext>"
      | _ => "unknown"
    TensorFetcherCPU :=
      { Fetch := fun blob =>
          match blob with
          | .tensorCPU t =>
            if t.elem = CaffeTypeId.float then
              .ok (PyObject.ndarray { typenum := 11, dims := t.dims, data := t.data })
            else .error (.enforce "numpy_type != -1" "This tensor's data type is not supported")
          | _ => .error .typeMismatch }
    TensorFeederCPU :=
      { Feed := fun _ array blob =>
          if array.typenum = 11 then
            (.ok (), Blob.tensorCPU
              { dims := array.dims, elem := CaffeTypeId.float, data := array.data })
          else (.error (.enforce "" "This numpy data type is not supported"), blob) }
    moreFetchers := []
    moreFeeders := [] }

/-- A workspace registry whose current workspace holds a tensor that was never given an
element type, under the name `"t"`. -/
def State.withUntypedTensor : State :=
  { gWorkspaces :=
      [("default",
        some
          { addr := 1
            ws :=
              { root_folder := none
                blob_map :=
                  [("t",
                    Blob.tensorCPU { dims := [], elem := CaffeTypeId.uninitialized, data := [] })]
                net_map := [] } })]
    gWorkspace := some 1
    gCurrentWorkspaceName := "default"
    initialized := true }

/-! ## Numpy type numbers -/

/-- A `TypeMeta`, identified by the type it describes; `TypeMeta::Make<T>()` has the
identifier `TypeMeta::Id<T>()`. -/
structure TypeMeta where
  id : CaffeTypeId
  deriving DecidableEq, Repr

/-- The factory `TypeMeta::Make<T>()`, given `TypeMeta::Id<T>()`. -/
def TypeMeta.Make (t : CaffeTypeId) : TypeMeta :=
  { id := t }

/-- The value of `static TypeMeta unknown_type;`, a default-constructed `TypeMeta`. -/
def TypeMeta.unknown : TypeMeta :=
  { id := CaffeTypeId.uninitialized }

/-- The enumerator `NPY_BOOL` of numpy's `NPY_TYPES`. -/
def NPY_BOOL : Int := 0

/-- The enumerator `NPY_BYTE`. -/
def NPY_BYTE : Int := 1

/-- The enumerator `NPY_UBYTE`. -/
def NPY_UBYTE : Int := 2

/-- The enumerator `NPY_SHORT`. -/
def NPY_SHORT : Int := 3

/-- The enumerator `NPY_USHORT`. -/
def NPY_USHORT : Int := 4

/-- The enumerator `NPY_INT`. -/
def NPY_INT : Int := 5

/-- The enumerator `NPY_LONG`. -/
def NPY_LONG : Int := 7

/-- The enumerator `NPY_LONGLONG`. -/
def NPY_LONGLONG : Int := 9

/-- The enumerator `NPY_FLOAT`. -/
def NPY_FLOAT : Int := 11

/-- The enumerator `NPY_DOUBLE`. -/
def NPY_DOUBLE : Int := 12

/-- The enumerator `NPY_OBJECT`. -/
def NPY_OBJECT : Int := 17

/-- The enumerator `NPY_HALF`. -/
def NPY_HALF : Int := 23

/-- The alias `NPY_INT8`, the 8-bit `signed char`. -/
def NPY_INT8 : Int := NPY_BYTE

/-- The alias `NPY_UINT8`. -/
def NPY_UINT8 : Int := NPY_UBYTE

/-- The alias `NPY_INT16`, the 16-bit `short`. -/
def NPY_INT16 : Int := NPY_SHORT

/-- The alias `NPY_UINT16`. -/
def NPY_UINT16 : Int := NPY_USHORT

/-- The alias `NPY_FLOAT16`. -/
def NPY_FLOAT16 : Int := NPY_HALF

/-- The alias `NPY_INT64`: `NPY_LONG` where `long` has 8 bytes, else `NPY_LONGLONG`. -/
def NPY_INT64 (sizeofLong : Nat) : Int :=
  if sizeofLong = 8 then NPY_LONG else NPY_LONGLONG

/-- Lookup in a `static std::map` built from an initializer list: of two entries with the
same key the map keeps the one listed first. -/
def staticMapFind {κ β : Type} [DecidableEq κ] : List (κ × β) → κ → Option β
  | [], _ => none
  | (k', v) :: rest, k => if k' = k then some v else staticMapFind rest k

/-- The initializer list of `numpy_type_map` in `CaffeToNumpyType`. -/
def numpy_type_map : List (CaffeTypeId × Int) :=
  [ (CaffeTypeId.bool, NPY_BOOL),
    (CaffeTypeId.double, NPY_DOUBLE),
    (CaffeTypeId.float, NPY_FLOAT),
    (CaffeTypeId.float16, NPY_FLOAT16),
    (CaffeTypeId.int, NPY_INT),
    (CaffeTypeId.int8_t, NPY_INT8),
    (CaffeTypeId.int16_t, NPY_INT16),
    (CaffeTypeId.int64_t, NPY_LONGLONG),
    (CaffeTypeId.uint8_t, NPY_UINT8),
    (CaffeTypeId.uint16_t, NPY_UINT16),
    (CaffeTypeId.string, NPY_OBJECT) ]

/-- The function `CaffeToNumpyType(meta)`. -/
def CaffeToNumpyType (typeMeta : TypeMeta) : Int :=
  match staticMapFind numpy_type_map typeMeta.id with
  | none => -1
  | some numpy_type => numpy_type

/-- The initializer list of `caffe_type_map` in `NumpyTypeToCaffe`, on a platform whose
`long` has `sizeofLong` bytes (`int` has 4, by the `static_assert` above the tables). -/
def caffe_type_map (sizeofLong : Nat) : List (Int × TypeMeta) :=
  [ (NPY_BOOL, TypeMeta.Make CaffeTypeId.bool),
    (NPY_DOUBLE, TypeMeta.Make CaffeTypeId.double),
    (NPY_FLOAT, TypeMeta.Make CaffeTypeId.float),
    (NPY_FLOAT16, TypeMeta.Make CaffeTypeId.float16),
    (NPY_INT, TypeMeta.Make CaffeTypeId.int),
    (NPY_INT8, TypeMeta.Make CaffeTypeId.int8_t),
    (NPY_INT16, TypeMeta.Make CaffeTypeId.int16_t),
    (NPY_INT64 sizeofLong, TypeMeta.Make CaffeTypeId.int64_t),
    (NPY_LONG,
      if sizeofLong = 4 then TypeMeta.Make CaffeTypeId.int
      else TypeMeta.Make CaffeTypeId.int64_t),
    (NPY_LONGLONG, TypeMeta.Make CaffeTypeId.int64_t),
    (NPY_UINT8, TypeMeta.Make CaffeTypeId.uint8_t),
    (NPY_UINT16, TypeMeta.Make CaffeTypeId.uint16_t),
    (NPY_OBJECT, TypeMeta.Make CaffeTypeId.string) ]

/-- The function `NumpyTypeToCaffe(numpy_type)`. -/
def NumpyTypeToCaffe (sizeofLong : Nat) (numpy_type : Int) : TypeMeta :=
  match staticMapFind (caffe_type_map sizeofLong) numpy_type with
  | none => TypeMeta.unknown
  | some typeMeta => typeMeta

/-! ## Gradient definitions -/

/-- The class `GradientWrapper` as the binding exposes it: the names `dense_`, `indices_`
and `values_`. -/
structure GradientWrapper where
  dense_ : String
  indices_ : String
  values_ : String
  deriving DecidableEq, Repr

/-- The `OperatorDef` message: type name, input and output names, arguments and device. -/
structure OperatorDef where
  type : String
  input : List String
  output : List String
  arg : List (String × String)
  device_option : Option DeviceOption
  deriving DecidableEq, Repr

/-- The result `GradientOpsMeta` of a gradient generator: the generated operators and the
gradients of the inputs. -/
structure GradientOpsMeta where
  ops_ : List OperatorDef
  g_input_ : List GradientWrapper
  deriving DecidableEq, Repr

/-- What `get_gradient_defs` takes from the rest of the program: the protobuf parser and
serializer of `OperatorDef`, the keys of `GradientRegistry()`, and the function
`GetGradientForOp` of the core library, which runs the generator registered for the type of
the operator and may throw. -/
structure GradientEnv where
  ParseOperatorDef : String → Option OperatorDef
  SerializeAsString : OperatorDef → String
  GradientRegistryKeys : List String
  GetGradientForOp : OperatorDef → List GradientWrapper → Except Failure GradientOpsMeta

/-- A call of `GetGradientForOp`, recorded with its two arguments. -/
structure GradientCall where
  opDef : OperatorDef
  g_output : List GradientWrapper
  deriving DecidableEq, Repr

/-- The binding `get_gradient_defs(op_def, output_gradients)`. Next to its outcome it returns
the calls it made to `GetGradientForOp`, in order; the binding reaches a gradient generator
in no other way. -/
def get_gradient_defs (env : GradientEnv) (op_def : String)
    (output_gradients : List GradientWrapper) :
    Except Failure (List String × List GradientWrapper) × List GradientCall :=
  match env.ParseOperatorDef op_def with
  | none => (.error (.enforce "def.ParseFromString(op_def)" ""), [])
  | some opDef =>
    if opDef.type ∈ env.GradientRegistryKeys then
      match env.GetGradientForOp opDef output_gradients with
      | .error e => (.error e, [{ opDef := opDef, g_output := output_gradients }])
      | .ok gradMeta =>
        let grad_ops :=
          gradMeta.ops_.foldl (fun acc op => acc ++ [env.SerializeAsString op]) []
        (.ok (grad_ops, gradMeta.g_input_),
          [{ opDef := opDef, g_output := output_gradients }])
    else (.error (.enforce "caffe2::GradientRegistry()->Has(def.type())" ""), [])

/-- The comma-separated fields of a text. -/
def commaFields : List Char → List String
  | [] => [""]
  | c :: cs =>
    match commaFields cs with
    | [] => [String.singleton c]
    | f :: fs => if c = ',' then "" :: f :: fs else (String.singleton c ++ f) :: fs

/-- A build that registers a gradient for `Relu` only. An operator definition is written as
its type name followed by its comma-free input and output name, separated by commas; the
gradient of `Relu` is one `ReluGradient` operator from the output and its gradient to the
gradient of the input. -/
def GradientEnv.reluOnly : GradientEnv :=
  { ParseOperatorDef := fun bytes =>
      match commaFields bytes.data with
      | [t, x, y] =>
        some { type := t, input := [x], output := [y], arg := [], device_option := none }
      | _ => none
    SerializeAsString := fun op =>
      String.intercalate "," (op.type :: (op.input ++ op.output))
    GradientRegistryKeys := ["Relu"]
    GetGradientForOp := fun opDef g_output =>
      .ok
        { ops_ :=
            [{ type := opDef.type ++ "Gradient"
               input := opDef.output ++ g_output.map GradientWrapper.dense_
               output := opDef.input.map (fun x => x ++ "_grad")
               arg := []
               device_option := opDef.device_option }]
          g_input_ :=
            opDef.input.map
              (fun x => { dense_ := x ++ "_grad", indices_ := "", values_ := "" }) } }

/-- The addresses of the live workspaces, in map order. -/
def slotAddrs : List (String × Option Slot) → List Nat
  | [] => []
  | (_, none) :: rest => slotAddrs rest
  | (_, some sl) :: rest => sl.addr :: slotAddrs rest

/-! ## Facts about the ordered containers -/

theorem mapFind_eq_none_iff {β : Type} (m : List (String × β)) (k : String) :
    mapFind m k = none ↔ k ∉ mapKeys m := by
  induction m with
  | nil => simp [mapFind, mapKeys]
  | cons p rest ih =>
    obtain ⟨k', v⟩ := p
    by_cases h : k' = k
    · simp [mapFind, mapKeys, h]
    · have h' : ¬ k = k' := fun e => h e.symm
      simpa [mapFind, mapKeys, h, h'] using ih

theorem mapFind_isSome_iff {β : Type} (m : List (String × β)) (k : String) :
    (mapFind m k).isSome = true ↔ k ∈ mapKeys m := by
  rw [← not_iff_not, ← mapFind_eq_none_iff]
  cases mapFind m k <;> simp

theorem mapFind_mapInsert_self {β : Type} (m : List (String × β)) (k : String) (v : β)
    (h : mapFind m k = none) : mapFind (mapInsert m k v) k = some v := by
  induction m with
  | nil => simp [mapInsert, mapFind]
  | cons p rest ih =>
    obtain ⟨k', v'⟩ := p
    by_cases hk : k' = k
    · simp [mapFind, hk] at h
    · simp only [mapFind, hk, if_false] at h
      by_cases hlt : k < k'
      · simp [mapInsert, hlt, mapFind]
      · simp [mapInsert, hlt, hk, mapFind, ih h]

theorem mapFind_mapInsert_ne {β : Type} (m : List (String × β)) (k k2 : String) (v : β)
    (h : k2 ≠ k) : mapFind (mapInsert m k v) k2 = mapFind m k2 := by
  have h' : ¬ k = k2 := fun e => h e.symm
  induction m with
  | nil => simp [mapInsert, mapFind, h']
  | cons p rest ih =>
    obtain ⟨k', v'⟩ := p
    by_cases hlt : k < k'
    · simp [mapInsert, hlt, mapFind, h']
    · by_cases hk : k' = k
      · simp [mapInsert, hlt, hk]
      · simp [mapInsert, hlt, hk, mapFind, ih]

theorem mapInsert_perm {β : Type} (m : List (String × β)) (k : String) (v : β)
    (h : mapFind m k = none) : List.Perm (mapInsert m k v) ((k, v) :: m) := by
  induction m with
  | nil => simp [mapInsert]
  | cons p rest ih =>
    obtain ⟨k', v'⟩ := p
    by_cases hk : k' = k
    · simp [mapFind, hk] at h
    · simp only [mapFind, hk, if_false] at h
      by_cases hlt : k < k'
      · simp [mapInsert, hlt]
      · simp only [mapInsert, hlt, hk, if_false]
        exact ((ih h).cons (k', v')).trans (List.Perm.swap _ _ _)

theorem mapFind_mapReplace_self {β : Type} (m : List (String × β)) (k : String) (v : β)
    (h : (mapFind m k).isSome = true) : mapFind (mapReplace m k v) k = some v := by
  induction m with
  | nil => simp [mapFind] at h
  | cons p rest ih =>
    obtain ⟨k', v'⟩ := p
    by_cases hk : k' = k
    · simp [mapReplace, mapFind, hk]
    · simp only [mapFind, hk, if_false] at h
      simp [mapReplace, mapFind, hk, ih h]

theorem mapFind_mapReplace_ne {β : Type} (m : List (String × β)) (k k2 : String) (v : β)
    (h : k2 ≠ k) : mapFind (mapReplace m k v) k2 = mapFind m k2 := by
  induction m with
  | nil => simp [mapReplace]
  | cons p rest ih =>
    obtain ⟨k', v'⟩ := p
    by_cases hk : k' = k
    · have hk2 : ¬ k = k2 := fun e => h e.symm
      simp [mapReplace, mapFind, hk, hk2]
    · simp [mapReplace, mapFind, hk, ih]

theorem mapKeys_mapReplace {β : Type} (m : List (String × β)) (k : String) (v : β) :
    mapKeys (mapReplace m k v) = mapKeys m := by
  induction m with
  | nil => simp [mapReplace]
  | cons p rest ih =>
    obtain ⟨k', v'⟩ := p
    by_cases hk : k' = k
    · simp [mapReplace, mapKeys, hk]
    · simp only [mapKeys] at ih
      simp [mapReplace, mapKeys, hk, ih]

theorem mapFind_mapAssign_self {β : Type} (m : List (String × β)) (k : String) (v : β) :
    mapFind (mapAssign m k v) k = some v := by
  unfold mapAssign
  by_cases h : (mapFind m k).isSome = true
  · simp [h, mapFind_mapReplace_self m k v h]
  · have hn : mapFind m k = none := by
      cases hm : mapFind m k with
      | none => rfl
      | some x => simp [hm] at h
    simp [h, mapFind_mapInsert_self m k v hn]

theorem mapFind_mapAssign_ne {β : Type} (m : List (String × β)) (k k2 : String) (v : β)
    (h : k2 ≠ k) : mapFind (mapAssign m k v) k2 = mapFind m k2 := by
  unfold mapAssign
  by_cases hs : (mapFind m k).isSome = true
  · simp [hs, mapFind_mapReplace_ne m k k2 v h]
  · simp [hs, mapFind_mapInsert_ne m k k2 v h]

theorem mapFind_mem {β : Type} (m : List (String × β)) (k : String) (v : β)
    (h : mapFind m k = some v) : (k, v) ∈ m := by
  induction m with
  | nil => simp [mapFind] at h
  | cons p rest ih =>
    obtain ⟨k', v'⟩ := p
    by_cases hk : k' = k
    · simp only [mapFind, hk, if_true, Option.some.injEq] at h
      simp [hk, h]
    · simp only [mapFind, hk, if_false] at h
      exact List.mem_cons_of_mem _ (ih h)

/-! ## Facts about addresses -/

theorem slotAddrs_eq_filterMap (m : List (String × Option Slot)) :
    slotAddrs m = m.filterMap (fun e => e.2.map Slot.addr) := by
  induction m with
  | nil => rfl
  | cons p rest ih =>
    obtain ⟨k', ptr⟩ := p
    cases ptr with
    | none => simpa [slotAddrs] using ih
    | some sl => simp [slotAddrs, ih]

theorem mem_slotAddrs (m : List (String × Option Slot)) (k : String) (sl : Slot)
    (h : (k, some sl) ∈ m) : sl.addr ∈ slotAddrs m := by
  rw [slotAddrs_eq_filterMap]
  exact List.mem_filterMap.mpr ⟨(k, some sl), h, rfl⟩

theorem le_maxAddr (b : Nat) (m : List (String × Option Slot)) (a : Nat)
    (h : a ∈ slotAddrs m) : a ≤ maxAddr b m := by
  induction m with
  | nil => simp [slotAddrs] at h
  | cons p rest ih =>
    obtain ⟨k', ptr⟩ := p
    cases ptr with
    | none => exact ih (by simpa [slotAddrs] using h)
    | some sl =>
      simp only [slotAddrs, List.mem_cons] at h
      simp only [maxAddr]
      rcases h with h | h
      · omega
      · have := ih h
        omega

theorem freshAddr_not_mem (s : State) : s.freshAddr ∉ slotAddrs s.gWorkspaces := by
  intro h
  have := le_maxAddr (s.gWorkspace.getD 0) s.gWorkspaces s.freshAddr h
  unfold State.freshAddr at this
  omega

theorem freshAddr_ne (s : State) (e : String × Option Slot) (h : e ∈ s.gWorkspaces)
    (sl : Slot) (hsl : e.2 = some sl) : sl.addr ≠ s.freshAddr := by
  intro heq
  obtain ⟨k, ptr⟩ := e
  simp only at hsl
  subst hsl
  exact freshAddr_not_mem s (heq ▸ mem_slotAddrs _ k sl h)

theorem slotAt_of_mapFind (m : List (String × Option Slot)) (k : String) (sl : Slot)
    (hnd : (slotAddrs m).Nodup) (h : mapFind m k = some (some sl)) :
    slotAt sl.addr m = some sl := by
  induction m with
  | nil => simp [mapFind] at h
  | cons p rest ih =>
    obtain ⟨k', ptr⟩ := p
    cases ptr with
    | none =>
      by_cases hk : k' = k
      · simp [mapFind, hk] at h
      · simp only [mapFind, hk, if_false] at h
        simp only [slotAddrs] at hnd
        simp only [slotAt]
        exact ih hnd h
    | some sl' =>
      simp only [slotAddrs, List.nodup_cons] at hnd
      by_cases hk : k' = k
      · simp only [mapFind, hk, if_true, Option.some.injEq] at h
        simp [slotAt, h]
      · simp only [mapFind, hk, if_false] at h
        have hmem : sl.addr ∈ slotAddrs rest := mem_slotAddrs rest k sl (mapFind_mem rest k _ h)
        have hne : ¬ sl'.addr = sl.addr := fun e => hnd.1 (e ▸ hmem)
        simp only [slotAt, hne, if_false]
        exact ih hnd.2 h

theorem slotAt_mapInsert_fresh (m : List (String × Option Slot)) (k : String) (a : Nat)
    (w : Workspace) (hfresh : a ∉ slotAddrs m) (h : mapFind m k = none) :
    slotAt a (mapInsert m k (some { addr := a, ws := w })) = some { addr := a, ws := w } := by
  induction m with
  | nil => simp [mapInsert, slotAt]
  | cons p rest ih =>
    obtain ⟨k', ptr⟩ := p
    by_cases hk : k' = k
    · simp [mapFind, hk] at h
    · simp only [mapFind, hk, if_false] at h
      by_cases hlt : k < k'
      · simp [mapInsert, hlt, slotAt]
      · cases ptr with
        | none =>
          simp only [slotAddrs] at hfresh
          simp only [mapInsert, hlt, hk, if_false, slotAt]
          exact ih hfresh h
        | some sl' =>
          simp only [slotAddrs, List.mem_cons, not_or] at hfresh
          have hne : ¬ sl'.addr = a := fun e => hfresh.1 e.symm
          simp only [mapInsert, hlt, hk, if_false, slotAt, hne]
          exact ih hfresh.2 h

theorem slotAt_mapReplace_fresh (m : List (String × Option Slot)) (k : String) (a : Nat)
    (w : Workspace) (hfresh : a ∉ slotAddrs m) (h : (mapFind m k).isSome = true) :
    slotAt a (mapReplace m k (some { addr := a, ws := w })) = some { addr := a, ws := w } := by
  induction m with
  | nil => simp [mapFind] at h
  | cons p rest ih =>
    obtain ⟨k', ptr⟩ := p
    by_cases hk : k' = k
    · simp [mapReplace, hk, slotAt]
    · simp only [mapFind, hk, if_false] at h
      cases ptr with
      | none =>
        simp only [slotAddrs] at hfresh
        simp only [mapReplace, hk, if_false, slotAt]
        exact ih hfresh h
      | some sl' =>
        simp only [slotAddrs, List.mem_cons, not_or] at hfresh
        have hne : ¬ sl'.addr = a := fun e => hfresh.1 e.symm
        simp only [mapReplace, hk, if_false, slotAt, hne]
        exact ih hfresh.2 h

theorem mapFind_eq_none_of_not_isSome {β : Type} (m : List (String × β)) (k : String)
    (h : ¬ (mapFind m k).isSome = true) : mapFind m k = none := by
  cases hm : mapFind m k with
  | none => rfl
  | some x => simp [hm] at h

theorem slotAt_mapAssign_fresh (m : List (String × Option Slot)) (k : String) (a : Nat)
    (w : Workspace) (hfresh : a ∉ slotAddrs m) :
    slotAt a (mapAssign m k (some { addr := a, ws := w })) = some { addr := a, ws := w } := by
  unfold mapAssign
  by_cases h : (mapFind m k).isSome = true
  · simp only [h, if_true]
    exact slotAt_mapReplace_fresh m k a w hfresh h
  · simp only [h]
    exact slotAt_mapInsert_fresh m k a w hfresh (mapFind_eq_none_of_not_isSome m k h)

theorem slotAddrs_mapInsert_perm (m : List (String × Option Slot)) (k : String)
    (ptr : Option Slot) (h : mapFind m k = none) :
    List.Perm (slotAddrs (mapInsert m k ptr)) (slotAddrs ((k, ptr) :: m)) := by
  rw [slotAddrs_eq_filterMap, slotAddrs_eq_filterMap]
  exact (mapInsert_perm m k ptr h).filterMap _

theorem slotAddrs_mapInsert_nodup (m : List (String × Option Slot)) (k : String) (sl : Slot)
    (hnd : (slotAddrs m).Nodup) (hfresh : sl.addr ∉ slotAddrs m) (h : mapFind m k = none) :
    (slotAddrs (mapInsert m k (some sl))).Nodup := by
  rw [(slotAddrs_mapInsert_perm m k (some sl) h).nodup_iff]
  simpa [slotAddrs] using And.intro hfresh hnd

theorem slotAddrs_mapTouch_nodup (m : List (String × Option Slot)) (k : String)
    (hnd : (slotAddrs m).Nodup) : (slotAddrs (mapTouch m k none)).Nodup := by
  unfold mapTouch
  by_cases h : (mapFind m k).isSome = true
  · simpa [h] using hnd
  · rw [if_neg h,
      (slotAddrs_mapInsert_perm m k none (mapFind_eq_none_of_not_isSome m k h)).nodup_iff]
    simpa [slotAddrs] using hnd

theorem mem_slotAddrs_mapReplace (m : List (String × Option Slot)) (k : String) (sl : Slot)
    (a : Nat) (h : a ∈ slotAddrs (mapReplace m k (some sl))) : a = sl.addr ∨ a ∈ slotAddrs m := by
  induction m with
  | nil => simp [mapReplace, slotAddrs] at h
  | cons p rest ih =>
    obtain ⟨k', ptr⟩ := p
    by_cases hk : k' = k
    · simp only [mapReplace, hk, if_true, slotAddrs, List.mem_cons] at h
      rcases h with h | h
      · exact Or.inl h
      · right
        cases ptr with
        | none => simpa [slotAddrs] using h
        | some sl' => simp [slotAddrs, h]
    · simp only [mapReplace, hk, if_false] at h
      cases ptr with
      | none =>
        simp only [slotAddrs] at h ⊢
        exact ih h
      | some sl' =>
        simp only [slotAddrs, List.mem_cons] at h ⊢
        rcases h with h | h
        · exact Or.inr (Or.inl h)
        · rcases ih h with h1 | h1
          · exact Or.inl h1
          · exact Or.inr (Or.inr h1)

theorem slotAddrs_mapReplace_nodup (m : List (String × Option Slot)) (k : String) (sl : Slot)
    (hnd : (slotAddrs m).Nodup) (hfresh : sl.addr ∉ slotAddrs m) :
    (slotAddrs (mapReplace m k (some sl))).Nodup := by
  induction m with
  | nil => simp [mapReplace, slotAddrs]
  | cons p rest ih =>
    obtain ⟨k', ptr⟩ := p
    by_cases hk : k' = k
    · cases ptr with
      | none =>
        simp only [slotAddrs] at hnd hfresh
        simp only [mapReplace, hk, if_true, slotAddrs, List.nodup_cons]
        exact ⟨hfresh, hnd⟩
      | some sl' =>
        simp only [slotAddrs, List.nodup_cons, List.mem_cons, not_or] at hnd hfresh
        simp only [mapReplace, hk, if_true, slotAddrs, List.nodup_cons]
        exact ⟨hfresh.2, hnd.2⟩
    · cases ptr with
      | none =>
        simp only [slotAddrs] at hnd hfresh
        simp only [mapReplace, hk, if_false, slotAddrs]
        exact ih hnd hfresh
      | some sl' =>
        simp only [slotAddrs, List.nodup_cons, List.mem_cons, not_or] at hnd hfresh
        simp only [mapReplace, hk, if_false, slotAddrs, List.nodup_cons]
        refine ⟨?_, ih hnd.2 hfresh.2⟩
        intro hmem
        rcases mem_slotAddrs_mapReplace rest k sl sl'.addr hmem with h1 | h1
        · exact hfresh.1 h1.symm
        · exact hnd.1 h1

theorem slotAddrs_mapAssign_nodup (m : List (String × Option Slot)) (k : String) (sl : Slot)
    (hnd : (slotAddrs m).Nodup) (hfresh : sl.addr ∉ slotAddrs m) :
    (slotAddrs (mapAssign m k (some sl))).Nodup := by
  unfold mapAssign
  by_cases h : (mapFind m k).isSome = true
  · simp only [h, if_true]
    exact slotAddrs_mapReplace_nodup m k sl hnd hfresh
  · simp only [h]
    exact slotAddrs_mapInsert_nodup m k sl hnd hfresh (mapFind_eq_none_of_not_isSome m k h)

/-! ## Switching workspaces -/

/-- C1: for every state and every name that is not a key of `gWorkspaces`,
`switchWorkspaceInternal(name, false)` throws, and so does `switch_workspace` with
`create_if_missing` omitted, `None` or `False`; the state after the failed call is the state
before it, so the map, the current name and the current pointer are untouched. -/
theorem switch_absent_without_create_fails (s : State) (name : String)
    (h : name ∉ workspaces s) :
    switchWorkspaceInternal name false s = (.error (.enforce "create_if_missing" ""), s) ∧
    switch_workspace name none s = (.error (.enforce "create_if_missing" ""), s) ∧
    switch_workspace name (some false) s = (.error (.enforce "create_if_missing" ""), s) := by
  have hn : mapFind s.gWorkspaces name = none := (mapFind_eq_none_iff _ _).mpr h
  simp [switch_workspace, switchWorkspaceInternal, hn]

/-- The failing switch of C1, run on a freshly loaded module with the name `"scratch"`. -/
theorem switch_absent_without_create_fails_witness :
    "scratch" ∉ workspaces State.loaded ∧
    switchWorkspaceInternal "scratch" false State.loaded =
      (.error (.enforce "create_if_missing" ""), State.loaded) ∧
    switch_workspace "scratch" none State.loaded =
      (.error (.enforce "create_if_missing" ""), State.loaded) ∧
    switch_workspace "scratch" (some false) State.loaded =
      (.error (.enforce "create_if_missing" ""), State.loaded) :=
  ⟨by decide, switch_absent_without_create_fails State.loaded "scratch" (by decide)⟩

/-- C2: `switchWorkspaceInternal(name, create_if_missing)` returns in exactly two cases.
When `name` is a key, for either flag the map is unchanged and the current name and pointer
become `name` and the pointer stored under it: the address of the workspace already stored
there, or null if the key is bound to a null pointer. When `name` is absent and the flag is
true, the map is the old one with exactly one more entry, binding `name` to a new empty
workspace at an address no old workspace has; every other key keeps its entry, and the
current name and pointer become `name` and that new workspace. -/
theorem switchWorkspaceInternal_cases (s : State) (name : String) (create_if_missing : Bool) :
    (∀ sl, mapFind s.gWorkspaces name = some (some sl) →
      switchWorkspaceInternal name create_if_missing s =
        (.ok (), { s with gCurrentWorkspaceName := name, gWorkspace := some sl.addr })) ∧
    (mapFind s.gWorkspaces name = some none →
      switchWorkspaceInternal name create_if_missing s =
        (.ok (), { s with gCurrentWorkspaceName := name, gWorkspace := none })) ∧
    (name ∉ workspaces s →
      ∃ s1, switchWorkspaceInternal name true s = (.ok (), s1) ∧
        s1.gCurrentWorkspaceName = name ∧
        s1.gWorkspace = some s.freshAddr ∧
        s1.deref = .ok (Workspace.create none) ∧
        mapFind s1.gWorkspaces name =
          some (some { addr := s.freshAddr, ws := Workspace.create none }) ∧
        (∀ k, k ≠ name → mapFind s1.gWorkspaces k = mapFind s.gWorkspaces k) ∧
        List.Perm s1.gWorkspaces
          ((name, some { addr := s.freshAddr, ws := Workspace.create none }) ::
            s.gWorkspaces) ∧
        (∀ e ∈ s.gWorkspaces, ∀ sl, e.2 = some sl → sl.addr ≠ s.freshAddr)) ∧
    ((switchWorkspaceInternal name create_if_missing s).1 = .ok () ↔
      (name ∈ workspaces s ∨ create_if_missing = true)) := by
  refine ⟨?_, ?_, ?_, ?_⟩
  · intro sl hsl
    simp [switchWorkspaceInternal, hsl]
  · intro hsl
    simp [switchWorkspaceInternal, hsl]
  · intro h
    have hn : mapFind s.gWorkspaces name = none := (mapFind_eq_none_iff _ _).mpr h
    refine ⟨{ s with
        gWorkspace := some s.freshAddr
        gWorkspaces := mapInsert s.gWorkspaces name
          (some { addr := s.freshAddr, ws := Workspace.create none })
        gCurrentWorkspaceName := name },
      by simp [switchWorkspaceInternal, hn], rfl, rfl, ?_, ?_, ?_, ?_, ?_⟩
    · simp only [State.deref]
      rw [slotAt_mapInsert_fresh s.gWorkspaces name s.freshAddr _ (freshAddr_not_mem s) hn]
    · exact mapFind_mapInsert_self _ _ _ hn
    · intro k hk
      exact mapFind_mapInsert_ne _ _ _ _ hk
    · exact mapInsert_perm _ _ _ hn
    · exact freshAddr_ne s
  · cases hm : mapFind s.gWorkspaces name with
    | some ptr =>
      have hk : name ∈ workspaces s := by
        rw [workspaces, ← mapFind_isSome_iff, hm]; rfl
      simp [switchWorkspaceInternal, hm, hk]
    | none =>
      have hk : name ∉ workspaces s := (mapFind_eq_none_iff _ _).mp hm
      cases create_if_missing <;> simp [switchWorkspaceInternal, hm, hk]

/-! ## The invariant of the registry -/

/-- A call of `switch_workspace` with an arbitrary object either throws in the cast and
leaves the state as it was, or is a call of `switchWorkspaceInternal`. -/
theorem switch_workspace_object_cases (castBool : PyObject → Option Bool) (name : String)
    (obj : PyObject) (s : State) :
    switch_workspace_object castBool name obj s = (.error .cast_error, s) ∨
      ∃ b, switch_workspace_object castBool name obj s = switchWorkspaceInternal name b s := by
  cases obj with
  | none => exact Or.inr ⟨false, rfl⟩
  | bool v =>
    cases hc : castBool (PyObject.bool v) with
    | none => exact Or.inl (by simp [switch_workspace_object, hc])
    | some b => exact Or.inr ⟨b, by simp [switch_workspace_object, switch_workspace, hc]⟩
  | bytes v =>
    cases hc : castBool (PyObject.bytes v) with
    | none => exact Or.inl (by simp [switch_workspace_object, hc])
    | some b => exact Or.inr ⟨b, by simp [switch_workspace_object, switch_workspace, hc]⟩
  | str v =>
    cases hc : castBool (PyObject.str v) with
    | none => exact Or.inl (by simp [switch_workspace_object, hc])
    | some b => exact Or.inr ⟨b, by simp [switch_workspace_object, switch_workspace, hc]⟩
  | ndarray v =>
    cases hc : castBool (PyObject.ndarray v) with
    | none => exact Or.inl (by simp [switch_workspace_object, hc])
    | some b => exact Or.inr ⟨b, by simp [switch_workspace_object, switch_workspace, hc]⟩
  | other v =>
    cases hc : castBool (PyObject.other v) with
    | none => exact Or.inl (by simp [switch_workspace_object, hc])
    | some b => exact Or.inr ⟨b, by simp [switch_workspace_object, switch_workspace, hc]⟩

/-- A call of `reset_workspace` with an arbitrary object either binds the current name to a
new empty workspace and returns true, or throws in the cast after evaluating
`gWorkspaces[gCurrentWorkspaceName]`. -/
theorem reset_workspace_cases (obj : PyObject) (s : State) :
    (∃ root : Option ByteString,
      reset_workspace obj s =
        rebindCurrent
          (mapAssign s.gWorkspaces s.gCurrentWorkspaceName
            (some { addr := s.freshAddr, ws := Workspace.create root })) s) ∨
    (obj ≠ PyObject.none ∧ castStdString obj = none ∧
      reset_workspace obj s =
        (.error .cast_error,
          { s with gWorkspaces := mapTouch s.gWorkspaces s.gCurrentWorkspaceName none })) := by
  cases obj with
  | none => exact Or.inl ⟨none, rfl⟩
  | bool v => exact Or.inr ⟨by simp, rfl, rfl⟩
  | bytes v => exact Or.inl ⟨some v, rfl⟩
  | str v => exact Or.inl ⟨some (utf8Encode v), rfl⟩
  | ndarray v => exact Or.inr ⟨by simp, rfl, rfl⟩
  | other v => exact Or.inr ⟨by simp, rfl, rfl⟩

/-- After the last statement of `reset_workspace` on a map in which the current name is bound
to a new workspace at a fresh address, the current pointer refers to that workspace. -/
theorem rebindCurrent_fresh (s : State) (w : Workspace) :
    (rebindCurrent (mapAssign s.gWorkspaces s.gCurrentWorkspaceName
        (some { addr := s.freshAddr, ws := w })) s).2.gWorkspace = some s.freshAddr ∧
    (rebindCurrent (mapAssign s.gWorkspaces s.gCurrentWorkspaceName
        (some { addr := s.freshAddr, ws := w })) s).2.deref = .ok w := by
  have hp : (rebindCurrent (mapAssign s.gWorkspaces s.gCurrentWorkspaceName
      (some { addr := s.freshAddr, ws := w })) s).2.gWorkspace = some s.freshAddr := by
    simp [rebindCurrent, mapFind_mapAssign_self]
  refine ⟨hp, ?_⟩
  simp only [State.deref, hp]
  simp only [rebindCurrent]
  rw [slotAt_mapAssign_fresh s.gWorkspaces _ s.freshAddr _ (freshAddr_not_mem s)]

/-- The addresses of the live workspaces are pairwise distinct, and either the map holds no
workspace, or the current name and pointer agree with the map. -/
theorem registry_invariant_step (castBool : PyObject → Option Bool) (c : Call) (s : State)
    (hnd : (slotAddrs s.gWorkspaces).Nodup)
    (h : s.TornDown ∨ s.CurrentBound ∨ s.CurrentNull) :
    (slotAddrs (c.run castBool s).gWorkspaces).Nodup ∧
      ((c.run castBool s).TornDown ∨ (c.run castBool s).CurrentBound ∨
        (c.run castBool s).CurrentNull) := by
  -- the ways a workspace becomes current
  have hswitch : ∀ (name : String) (b : Bool),
      (slotAddrs (switchWorkspaceInternal name b s).2.gWorkspaces).Nodup ∧
      ((switchWorkspaceInternal name b s).2.TornDown ∨
        (switchWorkspaceInternal name b s).2.CurrentBound ∨
        (switchWorkspaceInternal name b s).2.CurrentNull) := by
    intro name b
    cases hm : mapFind s.gWorkspaces name with
    | some ptr =>
      cases ptr with
      | some sl =>
        refine ⟨by simpa [switchWorkspaceInternal, hm] using hnd,
          Or.inr (Or.inl ⟨sl, ?_, ?_, ?_⟩)⟩
        · simp [switchWorkspaceInternal, hm]
        · simp [switchWorkspaceInternal, hm]
        · simp [switchWorkspaceInternal, hm, State.deref, slotAt_of_mapFind _ _ _ hnd hm]
      | none =>
        refine ⟨by simpa [switchWorkspaceInternal, hm] using hnd, Or.inr (Or.inr ⟨?_, ?_⟩)⟩
        · simp [switchWorkspaceInternal, hm]
        · simp [switchWorkspaceInternal, hm]
    | none =>
      cases b with
      | false => simpa [switchWorkspaceInternal, hm] using And.intro hnd h
      | true =>
        refine ⟨?_, Or.inr (Or.inl
          ⟨{ addr := s.freshAddr, ws := Workspace.create none }, ?_, ?_, ?_⟩)⟩
        · simpa [switchWorkspaceInternal, hm] using
            slotAddrs_mapInsert_nodup s.gWorkspaces name _ hnd (freshAddr_not_mem s) hm
        · simpa [switchWorkspaceInternal, hm] using mapFind_mapInsert_self _ _ _ hm
        · simp [switchWorkspaceInternal, hm]
        · simp [switchWorkspaceInternal, hm, State.deref,
            slotAt_mapInsert_fresh s.gWorkspaces name s.freshAddr _ (freshAddr_not_mem s) hm]
  cases c with
  | switch_workspace name obj =>
    rcases switch_workspace_object_cases castBool name obj s with hc | ⟨b, hc⟩
    · simp only [Call.run, hc]
      exact ⟨hnd, h⟩
    · simp only [Call.run, hc]
      exact hswitch name b
  | reset_workspace obj =>
    rcases reset_workspace_cases obj s with ⟨root, hc⟩ | ⟨_, _, hc⟩
    · simp only [Call.run, hc]
      have hf := rebindCurrent_fresh s (Workspace.create root)
      refine ⟨?_, Or.inr (Or.inl
        ⟨{ addr := s.freshAddr, ws := Workspace.create root }, ?_, hf.1, hf.2⟩)⟩
      · simpa [rebindCurrent] using
          slotAddrs_mapAssign_nodup s.gWorkspaces s.gCurrentWorkspaceName
            { addr := s.freshAddr, ws := Workspace.create root } hnd (freshAddr_not_mem s)
      · simp [rebindCurrent, mapFind_mapAssign_self]
    · simp only [Call.run, hc]
      refine ⟨slotAddrs_mapTouch_nodup _ _ hnd, ?_⟩
      by_cases hk : (mapFind s.gWorkspaces s.gCurrentWorkspaceName).isSome = true
      · have hsame : ({ s with
            gWorkspaces := mapTouch s.gWorkspaces s.gCurrentWorkspaceName none } : State) = s := by
          simp [mapTouch, hk]
        rw [hsame]
        exact h
      · have hn := mapFind_eq_none_of_not_isSome _ _ hk
        left
        rcases h with (h | h) | ⟨sl, hsl, _⟩ | ⟨hsl, _⟩
        · right
          simp [mapTouch, h, mapFind, mapInsert]
        · rw [h] at hn
          simp [mapFind] at hn
        · rw [hn] at hsl; cases hsl
        · rw [hn] at hsl; cases hsl
  | on_module_exit =>
    exact ⟨by simp [Call.run, on_module_exit, slotAddrs],
      Or.inl (Or.inl (by simp [Call.run, on_module_exit]))⟩

theorem registry_invariant_runCalls (castBool : PyObject → Option Bool) (calls : List Call)
    (s : State) (hnd : (slotAddrs s.gWorkspaces).Nodup)
    (h : s.TornDown ∨ s.CurrentBound ∨ s.CurrentNull) :
    (slotAddrs (runCalls castBool calls s).gWorkspaces).Nodup ∧
      ((runCalls castBool calls s).TornDown ∨ (runCalls castBool calls s).CurrentBound ∨
        (runCalls castBool calls s).CurrentNull) := by
  induction calls generalizing s with
  | nil => exact ⟨hnd, h⟩
  | cons c cs ih =>
    have hstep := registry_invariant_step castBool c s hnd h
    exact ih (c.run castBool s) hstep.1 hstep.2

theorem loaded_currentBound : State.loaded.CurrentBound :=
  ⟨{ addr := 1, ws := Workspace.create none }, by decide, by decide, rfl⟩

/-- C3, as amended: in every state reachable from module initialization by a finite sequence
of `switch_workspace`, `reset_workspace` and `on_module_exit` calls with arbitrary objects for
the optional arguments, failed calls included, one of three things holds. Either the
workspace map holds no workspace (it is empty, or its only entry binds the current name to a
null pointer); or the current name is a key of the map and the current pointer refers to the
workspace stored under that key; or the current name is a key bound to a null pointer and the
current pointer is null as well. -/
theorem reachable_registry_invariant (castBool : PyObject → Option Bool)
    (calls : List Call) :
    (runCalls castBool calls State.loaded).TornDown ∨
      (runCalls castBool calls State.loaded).CurrentBound ∨
      (runCalls castBool calls State.loaded).CurrentNull :=
  (registry_invariant_runCalls castBool calls State.loaded (by decide)
    (Or.inr (Or.inl loaded_currentBound))).2

/-- C3, as stated, fails: after `on_module_exit` the current name `"default"` is not a key
of the (empty) map. -/
theorem currentBound_fails_after_exit :
    ¬ (∀ calls : List Call, (runCalls castBoolStrict calls State.loaded).CurrentBound) := by
  intro h
  obtain ⟨sl, hsl, _⟩ := h [Call.on_module_exit]
  simp [runCalls, Call.run, on_module_exit, mapFind] at hsl

/-- The null entries of C3 are reachable: `on_module_exit()` followed by a `reset_workspace`
whose argument does not convert leaves `"default"` bound to a null pointer while `gWorkspace`
keeps the address of the destroyed workspace; a following `switch_workspace("default")` sets
`gWorkspace` to null. -/
theorem null_entry_reachable :
    runCalls castBoolStrict [Call.on_module_exit, Call.reset_workspace (PyObject.other 0)]
        State.loaded =
      { gWorkspaces := [("default", none)], gWorkspace := some 1,
        gCurrentWorkspaceName := "default", initialized := true } ∧
    runCalls castBoolStrict
        [Call.on_module_exit, Call.reset_workspace (PyObject.other 0),
          Call.switch_workspace "default" PyObject.none] State.loaded =
      { gWorkspaces := [("default", none)], gWorkspace := none,
        gCurrentWorkspaceName := "default", initialized := true } :=
  ⟨rfl, rfl⟩

/-! ## Tearing down -/

/-- C4, at the input `on_module_exit()` in a freshly loaded module followed by
`has_blob("x")`: the map is empty and `workspaces()` returns the empty list, but `gWorkspace`
still holds the address of the destroyed default workspace, so the guard
`CAFFE_ENFORCE(gWorkspace)` passes and the call follows a dangling pointer instead of
failing the guard. The same holds for `blobs()`, `root_folder()` and `create_blob`. -/
theorem exit_leaves_dangling_pointer :
    workspaces (on_module_exit State.loaded).2 = [] ∧
    (on_module_exit State.loaded).2.gWorkspace = some 1 ∧
    has_blob "x" (on_module_exit State.loaded).2 = .error .invalidPointer ∧
    has_blob "x" (on_module_exit State.loaded).2 ≠ .error (.enforce "gWorkspace" "") ∧
    blobs (on_module_exit State.loaded).2 = .error .invalidPointer ∧
    root_folder (on_module_exit State.loaded).2 = .error .invalidPointer ∧
    (create_blob "x" (on_module_exit State.loaded).2).1 = .error .invalidPointer := by
  refine ⟨rfl, rfl, rfl, ?_, rfl, rfl, rfl⟩
  intro h
  have h2 : has_blob "x" (on_module_exit State.loaded).2 = .error .invalidPointer := rfl
  rw [h2] at h
  cases h

/-- The binding `on_module_exit` empties the map and writes neither `gWorkspace` nor
`gCurrentWorkspaceName`. -/
theorem on_module_exit_effect (s : State) :
    (on_module_exit s).2 = { s with gWorkspaces := [] } ∧
    (on_module_exit s).2.gWorkspace = s.gWorkspace ∧
    (on_module_exit s).2.gCurrentWorkspaceName = s.gCurrentWorkspaceName :=
  ⟨rfl, rfl, rfl⟩

/-- After `on_module_exit`, whatever non-null value `gWorkspace` held, the guarded bindings
pass their guard and follow a pointer to a destroyed workspace. -/
theorem guarded_calls_after_exit (s : State) (a : Nat) (name : String)
    (h : s.gWorkspace = some a) :
    has_blob name (on_module_exit s).2 = .error .invalidPointer ∧
    blobs (on_module_exit s).2 = .error .invalidPointer ∧
    root_folder (on_module_exit s).2 = .error .invalidPointer ∧
    create_blob name (on_module_exit s).2 = (.error .invalidPointer, (on_module_exit s).2) := by
  simp [has_blob, blobs, root_folder, create_blob, enforceWorkspace, on_module_exit,
    State.deref, slotAt, h]

/-! ## Resetting -/

theorem reset_workspace_rootFolderArg (root : Option ByteString) (s : State) :
    reset_workspace (rootFolderArg root) s =
      rebindCurrent
        (mapAssign s.gWorkspaces s.gCurrentWorkspaceName
          (some { addr := s.freshAddr, ws := Workspace.create root })) s := by
  cases root <;> rfl

/-- A call of `reset_workspace` that returns did what the call with `None` or with some byte
string for the root folder does. -/
theorem reset_workspace_returns (obj : PyObject) (s : State)
    (h : (reset_workspace obj s).1 = .ok true) :
    ∃ root, reset_workspace obj s = reset_workspace (rootFolderArg root) s := by
  rcases reset_workspace_cases obj s with ⟨root, hc⟩ | ⟨_, _, hc⟩
  · exact ⟨root, by rw [hc, reset_workspace_rootFolderArg]⟩
  · rw [hc] at h
    cases h

theorem reset_workspace_map (root : Option ByteString) (s : State) :
    (reset_workspace (rootFolderArg root) s).2.gWorkspaces =
      mapAssign s.gWorkspaces s.gCurrentWorkspaceName
        (some { addr := s.freshAddr, ws := Workspace.create root }) := by
  rw [reset_workspace_rootFolderArg]
  rfl

theorem reset_workspace_pointer (root : Option ByteString) (s : State) :
    (reset_workspace (rootFolderArg root) s).2.gWorkspace = some s.freshAddr := by
  rw [reset_workspace_rootFolderArg]
  exact (rebindCurrent_fresh s _).1

theorem reset_workspace_deref (root : Option ByteString) (s : State) :
    (reset_workspace (rootFolderArg root) s).2.deref = .ok (Workspace.create root) := by
  rw [reset_workspace_rootFolderArg]
  exact (rebindCurrent_fresh s _).2

/-- C5: after `reset_workspace`, with or without a root folder, the current workspace holds
no blobs and no nets: for every name `has_blob(name)` is false and `fetch_blob(name)` fails
with "Can't find blob: name", and `blobs()` and `nets()` are empty. This holds for the
argument `None`, for every byte string, and for every object on which the call returns. -/
theorem reset_workspace_current_is_empty (env : Env) (root : Option ByteString) (s : State)
    (name : String) :
    (has_blob name (reset_workspace (rootFolderArg root) s).2 = .ok false ∧
    fetch_blob env name (reset_workspace (rootFolderArg root) s).2 =
      .error (.enforce "gWorkspace->HasBlob(name)" ("Can't find blob: " ++ name)) ∧
    blobs (reset_workspace (rootFolderArg root) s).2 = .ok [] ∧
    nets (reset_workspace (rootFolderArg root) s).2 = .ok []) ∧
    (∀ obj : PyObject, (reset_workspace obj s).1 = .ok true →
      has_blob name (reset_workspace obj s).2 = .ok false ∧
      fetch_blob env name (reset_workspace obj s).2 =
        .error (.enforce "gWorkspace->HasBlob(name)" ("Can't find blob: " ++ name)) ∧
      blobs (reset_workspace obj s).2 = .ok [] ∧
      nets (reset_workspace obj s).2 = .ok []) := by
  have key : ∀ r : Option ByteString,
      has_blob name (reset_workspace (rootFolderArg r) s).2 = .ok false ∧
      fetch_blob env name (reset_workspace (rootFolderArg r) s).2 =
        .error (.enforce "gWorkspace->HasBlob(name)" ("Can't find blob: " ++ name)) ∧
      blobs (reset_workspace (rootFolderArg r) s).2 = .ok [] ∧
      nets (reset_workspace (rootFolderArg r) s).2 = .ok [] := by
    intro r
    have hd := reset_workspace_deref r s
    have hp := reset_workspace_pointer r s
    refine ⟨?_, ?_, ?_, ?_⟩
    · simp [has_blob, enforceWorkspace, hp, hd, Workspace.HasBlob, Workspace.create, mapFind]
    · simp [fetch_blob, hd, Workspace.HasBlob, Workspace.create, mapFind]
    · simp [blobs, enforceWorkspace, hp, hd, Workspace.Blobs, Workspace.create, mapKeys]
    · simp [nets, hd, Workspace.Nets, Workspace.create, mapKeys]
  refine ⟨key root, ?_⟩
  intro obj hobj
  obtain ⟨r, hr⟩ := reset_workspace_returns obj s hobj
  rw [hr]
  exact key r

/-- C6: `reset_workspace` returns true and replaces only the workspace bound to the current
name: the current name is unchanged, every other key keeps its workspace, the list returned
by `workspaces()` is unchanged when the current name was already a key, and the current
pointer refers to the newly created workspace, stored under the current name at an address
no earlier workspace had. This holds for the argument `None` and for every byte string; a
call with any other object, if it returns, is one of these. -/
theorem reset_workspace_frame (root : Option ByteString) (s : State) :
    (reset_workspace (rootFolderArg root) s).1 = .ok true ∧
    current_workspace (reset_workspace (rootFolderArg root) s).2 = current_workspace s ∧
    (∀ k, k ≠ s.gCurrentWorkspaceName →
      mapFind (reset_workspace (rootFolderArg root) s).2.gWorkspaces k =
        mapFind s.gWorkspaces k) ∧
    (current_workspace s ∈ workspaces s →
      workspaces (reset_workspace (rootFolderArg root) s).2 = workspaces s) ∧
    mapFind (reset_workspace (rootFolderArg root) s).2.gWorkspaces s.gCurrentWorkspaceName =
      some (some { addr := s.freshAddr, ws := Workspace.create root }) ∧
    (reset_workspace (rootFolderArg root) s).2.gWorkspace = some s.freshAddr ∧
    (reset_workspace (rootFolderArg root) s).2.deref = .ok (Workspace.create root) ∧
    (∀ e ∈ s.gWorkspaces, ∀ sl, e.2 = some sl → sl.addr ≠ s.freshAddr) ∧
    (∀ obj : PyObject, (reset_workspace obj s).1 = .ok true →
      ∃ r, reset_workspace obj s = reset_workspace (rootFolderArg r) s) := by
  refine ⟨by rw [reset_workspace_rootFolderArg]; rfl,
    by rw [reset_workspace_rootFolderArg]; rfl, ?_, ?_, ?_, reset_workspace_pointer root s,
    reset_workspace_deref root s, freshAddr_ne s, fun obj h => reset_workspace_returns obj s h⟩
  · intro k hk
    rw [reset_workspace_map]
    exact mapFind_mapAssign_ne _ _ _ _ hk
  · intro hk
    have hs : (mapFind s.gWorkspaces s.gCurrentWorkspaceName).isSome = true :=
      (mapFind_isSome_iff _ _).mpr hk
    simp only [workspaces, reset_workspace_map, mapAssign, hs, if_true]
    exact mapKeys_mapReplace _ _ _
  · rw [reset_workspace_map]
    exact mapFind_mapAssign_self _ _ _

/-! ## Writes through the current pointer -/

theorem slotAt_writeAt (a : Nat) (w : Workspace) (m : List (String × Option Slot)) (sl : Slot)
    (h : slotAt a m = some sl) : slotAt a (writeAt a w m) = some { sl with ws := w } := by
  induction m with
  | nil => simp [slotAt] at h
  | cons p rest ih =>
    obtain ⟨k', ptr⟩ := p
    cases ptr with
    | none =>
      simp only [slotAt] at h
      simp only [writeAt, slotAt]
      exact ih h
    | some sl' =>
      by_cases hk : sl'.addr = a
      · simp only [slotAt, hk, if_true, Option.some.injEq] at h
        subst h
        simp [writeAt, slotAt, hk]
      · simp only [slotAt, hk, if_false] at h
        simp only [writeAt, slotAt, hk, if_false]
        exact ih h

theorem deref_write (s : State) (ws w : Workspace) (h : s.deref = .ok ws) :
    (s.write w).deref = .ok w := by
  unfold State.deref at h
  cases hg : s.gWorkspace with
  | none => simp [hg] at h
  | some a =>
    simp only [hg] at h
    cases hs : slotAt a s.gWorkspaces with
    | none => simp [hs] at h
    | some sl => simp [State.write, State.deref, hg, slotAt_writeAt a w _ sl hs]

theorem HasBlob_CreateBlob (ws : Workspace) (name : String) :
    (ws.CreateBlob name).HasBlob name = true := by
  unfold Workspace.CreateBlob
  by_cases h : ws.HasBlob name = true
  · simp [h]
  · have hn : mapFind ws.blob_map name = none := by
      cases hm : mapFind ws.blob_map name with
      | none => rfl
      | some x => simp [Workspace.HasBlob, hm] at h
    rw [if_neg h]
    simp [Workspace.HasBlob, mapFind_mapInsert_self _ _ _ hn]

theorem GetBlob_putBlob (ws : Workspace) (name : String) (b : Blob)
    (h : ws.HasBlob name = true) : (ws.putBlob name b).GetBlob name = some b := by
  simpa [Workspace.putBlob, Workspace.GetBlob] using mapFind_mapReplace_self _ _ b h

theorem storeString_GetMutableString (blob : Blob) (v : ByteString) :
    blob.GetMutableString.storeString v = Blob.string v := by
  cases blob <;> rfl

/-! ## Feeding and fetching -/

/-- A `device_option` that does not decode makes `feed_blob` fail before anything is
written. -/
theorem feed_blob_decode_failure_unchanged (env : Env) (name bytes : String) (arg : PyObject)
    (s : State) (h : env.ParseDeviceOption bytes = none) :
    feed_blob env name arg (some bytes) s =
      (.error (.enforce
        "option.ParseFromString( py::bytes(device_option).cast<std::string>())" ""), s) := by
  simp [feed_blob, h]

/-- C7, at the input `feed_blob("x", arg)` in a freshly loaded module with `arg` neither a
numpy array nor a string: the call fails, yet `blobs()` is empty before it and `["x"]` after
it, because `CreateBlob(name)` runs before the argument is examined. The same happens with a
numpy array whenever no feeder is registered for the decoded device type. -/
theorem feed_blob_failure_creates_blob (env : Env) :
    blobs State.loaded = .ok [] ∧
    (feed_blob env "x" (PyObject.other 0) none State.loaded).1 =
      .error (.enforce ""
        "Unexpected type of argument - only numpy array or string are supported for feeding") ∧
    blobs (feed_blob env "x" (PyObject.other 0) none State.loaded).2 = .ok ["x"] ∧
    (∀ (bytes : String) (option : DeviceOption) (array : PyArrayObject),
      env.ParseDeviceOption bytes = some option →
      CreateFeeder env option.device_type = none →
      (feed_blob env "x" (PyObject.ndarray array) (some bytes) State.loaded).1 =
        .error (.enforce "feeder" "Unknown device type encountered in FeedBlob.") ∧
      blobs (feed_blob env "x" (PyObject.ndarray array) (some bytes) State.loaded).2 =
        .ok ["x"]) := by
  refine ⟨rfl, rfl, rfl, ?_⟩
  intro bytes option array hp hf
  have hd : State.loaded.deref = .ok (Workspace.create none) := rfl
  have hg : (Workspace.create none).CreateBlob "x" =
      { root_folder := none, blob_map := [("x", Blob.empty)], net_map := [] } := rfl
  simp only [feed_blob, hp, hd, hg, hf]
  exact ⟨rfl, rfl⟩

/-- Bytes below `0x80` decode to the characters with those codes. -/
theorem utf8DecodeFrom_ascii (v : ByteString) (h : ∀ b ∈ v, b.toNat < 0x80) :
    utf8DecodeFrom 0 0 0 v = some (v.map (fun b => Char.ofNat b.toNat)) := by
  induction v with
  | nil => rfl
  | cons b rest ih =>
    have hb : b.toNat < 0x80 := h b (List.mem_cons_self _ _)
    have hrest := ih (fun c hc => h c (List.mem_cons_of_mem _ hc))
    simp [utf8DecodeFrom, hb, hrest]

/-- The strict decoder of the sample build decodes UTF-8. -/
theorem cpuOnly_decodesUTF8 : Env.cpuOnly.DecodesUTF8 := by
  intro bytes text h
  show pyStr bytes = .ok (PyObject.str text)
  simp [pyStr, h]

/-- C8, as amended: when the current pointer refers to a live workspace, `feed_blob(name, v)`
with a byte string `v` returns true and leaves under `name` a blob of type string holding
exactly the bytes `v`, whatever `name` held before. A following `fetch_blob(name)` returns
or fails exactly as `py::str` does on `v`: when `py::str` decodes UTF-8 it returns the text
that `v` encodes, which for bytes below `0x80` is the text with the characters of `v`. -/
theorem feed_string_then_fetch (env : Env) (s : State) (ws : Workspace) (name : String)
    (v : ByteString) (h : s.deref = .ok ws) :
    (feed_blob env name (PyObject.bytes v) none s).1 = .ok true ∧
    (∃ ws1, (feed_blob env name (PyObject.bytes v) none s).2.deref = .ok ws1 ∧
      ws1.GetBlob name = some (Blob.string v)) ∧
    fetch_blob env name (feed_blob env name (PyObject.bytes v) none s).2 = env.py_str v ∧
    (env.DecodesUTF8 → ∀ text, utf8Decode v = some text →
      fetch_blob env name (feed_blob env name (PyObject.bytes v) none s).2 =
        .ok (PyObject.str text)) ∧
    (env.DecodesUTF8 → (∀ b ∈ v, b.toNat < 0x80) →
      fetch_blob env name (feed_blob env name (PyObject.bytes v) none s).2 =
        .ok (PyObject.str (String.mk (v.map (fun b => Char.ofNat b.toNat))))) := by
  have hc := HasBlob_CreateBlob ws name
  obtain ⟨blob, hb⟩ : ∃ blob, (ws.CreateBlob name).GetBlob name = some blob := by
    have : ((ws.CreateBlob name).GetBlob name).isSome = true := hc
    exact Option.isSome_iff_exists.mp this
  have hfeed : feed_blob env name (PyObject.bytes v) none s =
      (.ok true, s.write ((ws.CreateBlob name).putBlob name (Blob.string v))) := by
    simp [feed_blob, h, hb, storeString_GetMutableString]
  have hd := deref_write s ws ((ws.CreateBlob name).putBlob name (Blob.string v)) h
  have hget := GetBlob_putBlob (ws.CreateBlob name) name (Blob.string v) hc
  have hhas : ((ws.CreateBlob name).putBlob name (Blob.string v)).HasBlob name = true := by
    have : (((ws.CreateBlob name).putBlob name (Blob.string v)).GetBlob name).isSome = true := by
      rw [hget]; rfl
    exact this
  have hfetch : fetch_blob env name (feed_blob env name (PyObject.bytes v) none s).2 =
      env.py_str v := by
    rw [hfeed]
    simp [fetch_blob, hd, hhas, hget, CreateFetcher, BlobFetcherRegistry, registryCreate,
      Blob.id, StringFetcher, Blob.GetString]
  refine ⟨by rw [hfeed], ⟨_, by rw [hfeed]; exact hd, hget⟩, hfetch, ?_, ?_⟩
  · intro henv text ht
    rw [hfetch]
    exact henv v text ht
  · intro henv hascii
    rw [hfetch]
    exact henv v _ (by simp [utf8Decode, utf8DecodeFrom_ascii v hascii])

/-- The feed and fetch of C8, run on a freshly loaded module with the bytes of `hello`. -/
theorem feed_string_then_fetch_witness :
    State.loaded.deref = .ok (Workspace.create none) ∧
    (feed_blob Env.cpuOnly "x" (PyObject.bytes [104, 101, 108, 108, 111]) none
      State.loaded).1 = .ok true ∧
    fetch_blob Env.cpuOnly "x" (feed_blob Env.cpuOnly "x"
      (PyObject.bytes [104, 101, 108, 108, 111]) none State.loaded).2 =
        .ok (PyObject.str "hello") :=
  ⟨rfl,
    (feed_string_then_fetch Env.cpuOnly State.loaded (Workspace.create none) "x"
      [104, 101, 108, 108, 111] rfl).1,
    (feed_string_then_fetch Env.cpuOnly State.loaded (Workspace.create none) "x"
      [104, 101, 108, 108, 111] rfl).2.2.2.1 cpuOnly_decodesUTF8 "hello" (by decide)⟩

/-- C8, as stated, fails: the byte string `\xff` is fed without error and is stored as it
is, but it is not UTF-8, so with a `py::str` that decodes UTF-8 the following `fetch_blob`
returns nothing at all. -/
theorem fetch_after_feed_fails_on_invalid_utf8 :
    ¬ (∀ (env : Env) (s : State) (ws : Workspace) (name : String) (v : ByteString),
      s.deref = .ok ws →
      ∃ r, fetch_blob env name (feed_blob env name (PyObject.bytes v) none s).2 = .ok r) := by
  intro hall
  obtain ⟨r, hr⟩ := hall Env.cpuOnly State.loaded (Workspace.create none) "x" [0xFF] rfl
  have hfail : fetch_blob Env.cpuOnly "x"
      (feed_blob Env.cpuOnly "x" (PyObject.bytes [0xFF]) none State.loaded).2 =
        .error .decodeError := rfl
  rw [hfail] at hr
  cases hr

/-- C9, as amended: when the current pointer refers to a live workspace, `fetch_blob(name)`
fails with "Can't find blob: name" if no blob called `name` exists; if the blob exists and
no fetcher is registered for its type it returns the string
"name, a C++ native class of type TypeName."; if a fetcher is registered it returns or
fails exactly as that fetcher does on the blob. -/
theorem fetch_blob_cases (env : Env) (s : State) (ws : Workspace) (name : String)
    (h : s.deref = .ok ws) :
    (ws.HasBlob name = false →
      fetch_blob env name s =
        .error (.enforce "gWorkspace->HasBlob(name)" ("Can't find blob: " ++ name))) ∧
    (∀ blob, ws.GetBlob name = some blob → CreateFetcher env blob.id = none →
      fetch_blob env name s =
        .ok (PyObject.str
          (name ++ ", a C++ native class of type " ++ env.typeName blob.id ++ "."))) ∧
    (∀ blob fetcher, ws.GetBlob name = some blob →
      CreateFetcher env blob.id = some fetcher →
      fetch_blob env name s = fetcher.Fetch blob) := by
  refine ⟨?_, ?_, ?_⟩
  · intro hn
    simp [fetch_blob, h, hn]
  · intro blob hb hf
    have hhas : ws.HasBlob name = true := by
      simp only [Workspace.GetBlob] at hb
      simp [Workspace.HasBlob, hb]
    simp [fetch_blob, h, hhas, hb, hf]
  · intro blob fetcher hb hf
    have hhas : ws.HasBlob name = true := by
      simp only [Workspace.GetBlob] at hb
      simp [Workspace.HasBlob, hb]
    simp [fetch_blob, h, hhas, hb, hf]

/-- The fallback of C9, run on the empty blob that a failed `feed_blob` leaves behind. -/
theorem fetch_blob_cases_witness :
    (feed_blob Env.cpuOnly "x" (PyObject.other 0) none State.loaded).2.deref =
      .ok { root_folder := none, blob_map := [("x", Blob.empty)], net_map := [] } ∧
    fetch_blob Env.cpuOnly "x" (feed_blob Env.cpuOnly "x" (PyObject.other 0) none
        State.loaded).2 =
      .ok (PyObject.str ("x" ++ ", a C++ native class of type " ++
        Env.cpuOnly.typeName Blob.empty.id ++ ".")) :=
  ⟨rfl, (fetch_blob_cases Env.cpuOnly
    (feed_blob Env.cpuOnly "x" (PyObject.other 0) none State.loaded).2
    { root_folder := none, blob_map := [("x", Blob.empty)], net_map := [] } "x" rfl).2.1
    Blob.empty rfl rfl⟩

/-- C9, as stated, fails: with a tensor fetcher that rejects a tensor without element type,
`fetch_blob("t")` fails although a blob called `"t"` exists in the current workspace. -/
theorem fetch_blob_fails_on_present_blob :
    ¬ (∀ (env : Env) (s : State) (ws : Workspace) (name : String), s.deref = .ok ws →
      ((∃ e, fetch_blob env name s = .error e) ↔ ws.HasBlob name = false)) := by
  intro hall
  have hiff := hall Env.cpuOnly State.withUntypedTensor
    { root_folder := none
      blob_map :=
        [("t", Blob.tensorCPU { dims := [], elem := CaffeTypeId.uninitialized, data := [] })]
      net_map := [] } "t" rfl
  have hfail : ∃ e, fetch_blob Env.cpuOnly "t" State.withUntypedTensor = .error e :=
    ⟨.enforce "numpy_type != -1" "This tensor's data type is not supported", rfl⟩
  have hhas := hiff.mp hfail
  revert hhas
  decide

/-! ## The operator listing -/

theorem mem_setInsert (l : List String) (k x : String) :
    x ∈ setInsert l k ↔ x = k ∨ x ∈ l := by
  induction l with
  | nil => simp [setInsert]
  | cons k' rest ih =>
    by_cases hlt : k < k'
    · simp [setInsert, hlt]
    · by_cases hk : k' = k
      · simp [setInsert, hlt, hk]
      · simp only [setInsert, hlt, hk, if_false, List.mem_cons, ih]
        tauto

theorem pairwise_setInsert (l : List String) (k : String)
    (h : l.Pairwise (fun a b => a < b)) : (setInsert l k).Pairwise (fun a b => a < b) := by
  induction l with
  | nil => simp [setInsert]
  | cons k' rest ih =>
    rw [List.pairwise_cons] at h
    by_cases hlt : k < k'
    · simp only [setInsert, hlt, if_true]
      refine List.pairwise_cons.mpr ⟨?_, List.pairwise_cons.mpr h⟩
      intro y hy
      rcases List.mem_cons.mp hy with hy | hy
      · rw [hy]; exact hlt
      · exact lt_trans hlt (h.1 y hy)
    · by_cases hk : k' = k
      · subst hk
        simp only [setInsert, hlt, if_true, if_false]
        exact List.pairwise_cons.mpr h
      · simp only [setInsert, hlt, hk, if_false]
        refine List.pairwise_cons.mpr ⟨?_, ih h.2⟩
        intro y hy
        rcases (mem_setInsert rest k y).mp hy with hy | hy
        · rw [hy]
          exact lt_of_le_of_ne (not_lt.mp hlt) hk
        · exact h.1 y hy

theorem mem_foldl_setInsert (ks acc : List String) (x : String) :
    x ∈ ks.foldl setInsert acc ↔ x ∈ acc ∨ x ∈ ks := by
  induction ks generalizing acc with
  | nil => simp
  | cons k rest ih =>
    simp only [List.foldl_cons, ih, mem_setInsert, List.mem_cons]
    tauto

theorem pairwise_foldl_setInsert (ks acc : List String)
    (h : acc.Pairwise (fun a b => a < b)) :
    (ks.foldl setInsert acc).Pairwise (fun a b => a < b) := by
  induction ks generalizing acc with
  | nil => exact h
  | cons k rest ih => exact ih _ (pairwise_setInsert acc k h)

theorem foldl_push_back (l acc : List String) :
    l.foldl (fun keys key => keys ++ [key]) acc = acc ++ l := by
  induction l generalizing acc with
  | nil => simp
  | cons k rest ih => simp [ih]

/-- C10: the list returned by `registered_operators` is strictly increasing in the order of
`std::string` (so it is sorted and has no duplicates), its elements are exactly the keys of
the CPU operator registry together with those of the CUDA operator registry, and a key
present in both occurs once. -/
theorem registered_operators_sorted (cpuKeys cudaKeys : List String) :
    (registered_operators cpuKeys cudaKeys).Pairwise (fun a b => a < b) ∧
    (registered_operators cpuKeys cudaKeys).Nodup ∧
    (∀ k, k ∈ registered_operators cpuKeys cudaKeys ↔ k ∈ cpuKeys ∨ k ∈ cudaKeys) ∧
    (∀ k, k ∈ cpuKeys → k ∈ cudaKeys →
      (registered_operators cpuKeys cudaKeys).count k = 1) := by
  have hsorted : (registered_operators cpuKeys cudaKeys).Pairwise (fun a b => a < b) := by
    simp only [registered_operators, foldl_push_back, List.nil_append]
    exact pairwise_foldl_setInsert _ _ (pairwise_foldl_setInsert _ _ List.Pairwise.nil)
  have hnodup : (registered_operators cpuKeys cudaKeys).Nodup :=
    hsorted.imp (fun hab => ne_of_lt hab)
  have hmem : ∀ k, k ∈ registered_operators cpuKeys cudaKeys ↔ k ∈ cpuKeys ∨ k ∈ cudaKeys := by
    intro k
    simp [registered_operators, foldl_push_back, mem_foldl_setInsert]
  refine ⟨hsorted, hnodup, hmem, ?_⟩
  intro k hc _
  exact List.count_eq_one_of_mem hnodup ((hmem k).mpr (Or.inl hc))

/-! ## The workspace map stays in key order -/

theorem mapKeys_mapInsert {β : Type} (m : List (String × β)) (k : String) (v : β) :
    mapKeys (mapInsert m k v) = setInsert (mapKeys m) k := by
  induction m with
  | nil => simp [mapInsert, mapKeys, setInsert]
  | cons p rest ih =>
    obtain ⟨k', v'⟩ := p
    simp only [mapKeys] at ih
    by_cases hlt : k < k'
    · simp [mapInsert, mapKeys, setInsert, hlt]
    · by_cases hk : k' = k
      · simp [mapInsert, mapKeys, setInsert, hlt, hk]
      · simp [mapInsert, mapKeys, setInsert, hlt, hk, ih]

theorem mapKeys_mapAssign_sorted {β : Type} (m : List (String × β)) (k : String) (v : β)
    (h : (mapKeys m).Pairwise (fun a b => a < b)) :
    (mapKeys (mapAssign m k v)).Pairwise (fun a b => a < b) := by
  unfold mapAssign
  by_cases hs : (mapFind m k).isSome = true
  · rw [if_pos hs, mapKeys_mapReplace]
    exact h
  · rw [if_neg hs, mapKeys_mapInsert]
    exact pairwise_setInsert _ _ h

theorem mapKeys_mapTouch_sorted {β : Type} (m : List (String × β)) (k : String) (v : β)
    (h : (mapKeys m).Pairwise (fun a b => a < b)) :
    (mapKeys (mapTouch m k v)).Pairwise (fun a b => a < b) := by
  unfold mapTouch
  by_cases hs : (mapFind m k).isSome = true
  · rw [if_pos hs]
    exact h
  · rw [if_neg hs, mapKeys_mapInsert]
    exact pairwise_setInsert _ _ h

theorem keys_sorted_step (castBool : PyObject → Option Bool) (c : Call) (s : State)
    (h : (workspaces s).Pairwise (fun a b => a < b)) :
    (workspaces (c.run castBool s)).Pairwise (fun a b => a < b) := by
  have hswitch : ∀ (name : String) (b : Bool),
      (workspaces (switchWorkspaceInternal name b s).2).Pairwise (fun a b => a < b) := by
    intro name b
    cases hm : mapFind s.gWorkspaces name with
    | some ptr => simpa [switchWorkspaceInternal, hm, workspaces] using h
    | none =>
      cases b with
      | false => simpa [switchWorkspaceInternal, hm, workspaces] using h
      | true =>
        simp only [switchWorkspaceInternal, hm, workspaces, if_true, mapKeys_mapInsert]
        exact pairwise_setInsert _ _ h
  cases c with
  | switch_workspace name obj =>
    rcases switch_workspace_object_cases castBool name obj s with hc | ⟨b, hc⟩
    · simp only [Call.run, hc]
      exact h
    · simp only [Call.run, hc]
      exact hswitch name b
  | reset_workspace obj =>
    rcases reset_workspace_cases obj s with ⟨root, hc⟩ | ⟨_, _, hc⟩
    · simp only [Call.run, hc, workspaces, rebindCurrent]
      exact mapKeys_mapAssign_sorted _ _ _ h
    · simp only [Call.run, hc, workspaces]
      exact mapKeys_mapTouch_sorted _ _ _ h
  | on_module_exit => simp [Call.run, on_module_exit, workspaces, mapKeys]

/-- In every reachable state the keys of `gWorkspaces` are strictly increasing, as the keys
of a `std::map` are; so is the list returned by `workspaces()`. -/
theorem reachable_keys_sorted (castBool : PyObject → Option Bool) (calls : List Call) :
    (workspaces (runCalls castBool calls State.loaded)).Pairwise (fun a b => a < b) := by
  have key : ∀ (cs : List Call) (s : State), (workspaces s).Pairwise (fun a b => a < b) →
      (workspaces (runCalls castBool cs s)).Pairwise (fun a b => a < b) := by
    intro cs
    induction cs with
    | nil => intro s hs; exact hs
    | cons c cs ih =>
      intro s hs
      exact ih (c.run castBool s) (keys_sorted_step castBool c s hs)
  exact key calls State.loaded (by simp [State.loaded, moduleInit, State.start,
    switchWorkspaceInternal, mapFind, mapInsert, workspaces, mapKeys])

/-! ## The numpy type tables -/

theorem staticMapFind_eq_none {κ β : Type} [DecidableEq κ] (l : List (κ × β)) (k : κ)
    (h : k ∉ l.map Prod.fst) : staticMapFind l k = none := by
  induction l with
  | nil => rfl
  | cons p rest ih =>
    obtain ⟨k', v⟩ := p
    simp only [List.map_cons, List.mem_cons, not_or] at h
    have hk : ¬ k' = k := fun e => h.1 e.symm
    simp only [staticMapFind, hk, if_false]
    exact ih h.2

/-- The keys of `numpy_type_map` are the eleven types listed in `CaffeToNumpyType`. -/
theorem numpy_type_map_keys :
    numpy_type_map.map Prod.fst =
      [CaffeTypeId.bool, CaffeTypeId.double, CaffeTypeId.float, CaffeTypeId.float16,
        CaffeTypeId.int, CaffeTypeId.int8_t, CaffeTypeId.int16_t, CaffeTypeId.int64_t,
        CaffeTypeId.uint8_t, CaffeTypeId.uint16_t, CaffeTypeId.string] :=
  rfl

/-- The numpy codes that are keys of `caffe_type_map`, whatever the size of `long`. -/
theorem caffe_type_map_keys (sizeofLong : Nat) (n : Int) :
    n ∈ (caffe_type_map sizeofLong).map Prod.fst ↔
      n ∈ [NPY_BOOL, NPY_BYTE, NPY_UBYTE, NPY_SHORT, NPY_USHORT, NPY_INT, NPY_LONG,
        NPY_LONGLONG, NPY_FLOAT, NPY_DOUBLE, NPY_OBJECT, NPY_HALF] := by
  by_cases h8 : sizeofLong = 8
  · simp only [caffe_type_map, NPY_INT64, h8, if_true, NPY_INT8, NPY_INT16, NPY_UINT8,
      NPY_UINT16, NPY_FLOAT16, List.map_cons, List.map_nil, List.mem_cons, List.mem_nil_iff]
    tauto
  · simp only [caffe_type_map, NPY_INT64, h8, if_false, NPY_INT8, NPY_INT16, NPY_UINT8,
      NPY_UINT16, NPY_FLOAT16, List.map_cons, List.map_nil, List.mem_cons, List.mem_nil_iff]
    tauto

/-- C12: the two numpy type tables are consistent, whatever the size of `long`. For each of
the eleven types `bool`, `double`, `float`, `float16`, `int`, `int8_t`, `int16_t`, `int64_t`,
`uint8_t`, `uint16_t` and `std::string`, `CaffeToNumpyType` returns the numpy code the table
lists for it, which is not -1, and `NumpyTypeToCaffe` maps that code back to the type meta of
the same type. `CaffeToNumpyType` returns -1 for every other type. `NumpyTypeToCaffe` returns
the listed type meta for each of the twelve codes of its table (for `NPY_LONG` that of `int`
where `long` has the size of `int`, else that of `int64_t`) and the default-constructed type
meta for every other numpy code. -/
theorem numpy_type_tables_consistent (sizeofLong : Nat) :
    (CaffeToNumpyType (TypeMeta.Make CaffeTypeId.bool) = NPY_BOOL ∧
      CaffeToNumpyType (TypeMeta.Make CaffeTypeId.double) = NPY_DOUBLE ∧
      CaffeToNumpyType (TypeMeta.Make CaffeTypeId.float) = NPY_FLOAT ∧
      CaffeToNumpyType (TypeMeta.Make CaffeTypeId.float16) = NPY_FLOAT16 ∧
      CaffeToNumpyType (TypeMeta.Make CaffeTypeId.int) = NPY_INT ∧
      CaffeToNumpyType (TypeMeta.Make CaffeTypeId.int8_t) = NPY_INT8 ∧
      CaffeToNumpyType (TypeMeta.Make CaffeTypeId.int16_t) = NPY_INT16 ∧
      CaffeToNumpyType (TypeMeta.Make CaffeTypeId.int64_t) = NPY_LONGLONG ∧
      CaffeToNumpyType (TypeMeta.Make CaffeTypeId.uint8_t) = NPY_UINT8 ∧
      CaffeToNumpyType (TypeMeta.Make CaffeTypeId.uint16_t) = NPY_UINT16 ∧
      CaffeToNumpyType (TypeMeta.Make CaffeTypeId.string) = NPY_OBJECT) ∧
    (∀ t ∈ [CaffeTypeId.bool, CaffeTypeId.double, CaffeTypeId.float, CaffeTypeId.float16,
        CaffeTypeId.int, CaffeTypeId.int8_t, CaffeTypeId.int16_t, CaffeTypeId.int64_t,
        CaffeTypeId.uint8_t, CaffeTypeId.uint16_t, CaffeTypeId.string],
      CaffeToNumpyType (TypeMeta.Make t) ≠ -1 ∧
      NumpyTypeToCaffe sizeofLong (CaffeToNumpyType (TypeMeta.Make t)) = TypeMeta.Make t) ∧
    (∀ typeMeta : TypeMeta,
      typeMeta.id ∉ [CaffeTypeId.bool, CaffeTypeId.double, CaffeTypeId.float,
        CaffeTypeId.float16, CaffeTypeId.int, CaffeTypeId.int8_t, CaffeTypeId.int16_t,
        CaffeTypeId.int64_t, CaffeTypeId.uint8_t, CaffeTypeId.uint16_t, CaffeTypeId.string] →
      CaffeToNumpyType typeMeta = -1) ∧
    (NumpyTypeToCaffe sizeofLong NPY_BOOL = TypeMeta.Make CaffeTypeId.bool ∧
      NumpyTypeToCaffe sizeofLong NPY_DOUBLE = TypeMeta.Make CaffeTypeId.double ∧
      NumpyTypeToCaffe sizeofLong NPY_FLOAT = TypeMeta.Make CaffeTypeId.float ∧
      NumpyTypeToCaffe sizeofLong NPY_HALF = TypeMeta.Make CaffeTypeId.float16 ∧
      NumpyTypeToCaffe sizeofLong NPY_INT = TypeMeta.Make CaffeTypeId.int ∧
      NumpyTypeToCaffe sizeofLong NPY_BYTE = TypeMeta.Make CaffeTypeId.int8_t ∧
      NumpyTypeToCaffe sizeofLong NPY_SHORT = TypeMeta.Make CaffeTypeId.int16_t ∧
      NumpyTypeToCaffe sizeofLong NPY_LONG =
        (if sizeofLong = 4 then TypeMeta.Make CaffeTypeId.int
          else TypeMeta.Make CaffeTypeId.int64_t) ∧
      NumpyTypeToCaffe sizeofLong NPY_LONGLONG = TypeMeta.Make CaffeTypeId.int64_t ∧
      NumpyTypeToCaffe sizeofLong NPY_UBYTE = TypeMeta.Make CaffeTypeId.uint8_t ∧
      NumpyTypeToCaffe sizeofLong NPY_USHORT = TypeMeta.Make CaffeTypeId.uint16_t ∧
      NumpyTypeToCaffe sizeofLong NPY_OBJECT = TypeMeta.Make CaffeTypeId.string) ∧
    (∀ numpy_type : Int,
      numpy_type ∉ [NPY_BOOL, NPY_BYTE, NPY_UBYTE, NPY_SHORT, NPY_USHORT, NPY_INT, NPY_LONG,
        NPY_LONGLONG, NPY_FLOAT, NPY_DOUBLE, NPY_OBJECT, NPY_HALF] →
      NumpyTypeToCaffe sizeofLong numpy_type = TypeMeta.unknown) := by
  have htable :
      NumpyTypeToCaffe sizeofLong NPY_BOOL = TypeMeta.Make CaffeTypeId.bool ∧
      NumpyTypeToCaffe sizeofLong NPY_DOUBLE = TypeMeta.Make CaffeTypeId.double ∧
      NumpyTypeToCaffe sizeofLong NPY_FLOAT = TypeMeta.Make CaffeTypeId.float ∧
      NumpyTypeToCaffe sizeofLong NPY_HALF = TypeMeta.Make CaffeTypeId.float16 ∧
      NumpyTypeToCaffe sizeofLong NPY_INT = TypeMeta.Make CaffeTypeId.int ∧
      NumpyTypeToCaffe sizeofLong NPY_BYTE = TypeMeta.Make CaffeTypeId.int8_t ∧
      NumpyTypeToCaffe sizeofLong NPY_SHORT = TypeMeta.Make CaffeTypeId.int16_t ∧
      NumpyTypeToCaffe sizeofLong NPY_LONG =
        (if sizeofLong = 4 then TypeMeta.Make CaffeTypeId.int
          else TypeMeta.Make CaffeTypeId.int64_t) ∧
      NumpyTypeToCaffe sizeofLong NPY_LONGLONG = TypeMeta.Make CaffeTypeId.int64_t ∧
      NumpyTypeToCaffe sizeofLong NPY_UBYTE = TypeMeta.Make CaffeTypeId.uint8_t ∧
      NumpyTypeToCaffe sizeofLong NPY_USHORT = TypeMeta.Make CaffeTypeId.uint16_t ∧
      NumpyTypeToCaffe sizeofLong NPY_OBJECT = TypeMeta.Make CaffeTypeId.string := by
    by_cases h8 : sizeofLong = 8
    · subst h8
      decide
    · by_cases h4 : sizeofLong = 4
      · subst h4
        decide
      · simp [NumpyTypeToCaffe, caffe_type_map, staticMapFind, NPY_INT64, h8, h4,
          TypeMeta.Make, NPY_BOOL, NPY_BYTE, NPY_UBYTE, NPY_SHORT, NPY_USHORT, NPY_INT,
          NPY_LONG, NPY_LONGLONG, NPY_FLOAT, NPY_DOUBLE, NPY_OBJECT, NPY_HALF, NPY_INT8,
          NPY_INT16, NPY_UINT8, NPY_UINT16, NPY_FLOAT16]
  refine ⟨by decide, ?_, ?_, htable, ?_⟩
  · intro t hmem
    simp only [List.mem_cons, List.mem_nil_iff, or_false] at hmem
    by_cases h8 : sizeofLong = 8
    · subst h8
      rcases hmem with h | h | h | h | h | h | h | h | h | h | h <;> subst h <;> decide
    · by_cases h4 : sizeofLong = 4
      · subst h4
        rcases hmem with h | h | h | h | h | h | h | h | h | h | h <;> subst h <;> decide
      · rcases hmem with h | h | h | h | h | h | h | h | h | h | h <;> subst h <;>
          refine ⟨by decide, ?_⟩ <;>
          simp [CaffeToNumpyType, NumpyTypeToCaffe, numpy_type_map, caffe_type_map,
            staticMapFind, NPY_INT64, h8, h4, TypeMeta.Make, NPY_BOOL, NPY_BYTE, NPY_UBYTE,
            NPY_SHORT, NPY_USHORT, NPY_INT, NPY_LONG, NPY_LONGLONG, NPY_FLOAT, NPY_DOUBLE,
            NPY_OBJECT, NPY_HALF, NPY_INT8, NPY_INT16, NPY_UINT8, NPY_UINT16, NPY_FLOAT16]
  · intro typeMeta hmem
    rw [← numpy_type_map_keys] at hmem
    simp [CaffeToNumpyType, staticMapFind_eq_none numpy_type_map typeMeta.id hmem]
  · intro numpy_type hmem
    rw [← caffe_type_map_keys sizeofLong] at hmem
    simp [NumpyTypeToCaffe, staticMapFind_eq_none (caffe_type_map sizeofLong) numpy_type hmem]

/-! ## Gradient definitions -/

theorem foldl_serialize {α : Type} (f : α → String) (l : List α) (acc : List String) :
    l.foldl (fun acc op => acc ++ [f op]) acc = acc ++ l.map f := by
  induction l generalizing acc with
  | nil => simp
  | cons a rest ih => simp [ih]

/-- C11: `get_gradient_defs` fails without calling `GetGradientForOp` when the bytes do not
decode, and when they decode to an operator whose type name is not a key of the gradient
registry. When the type is registered and `GetGradientForOp` returns, it was called once, on
the decoded operator and the given output gradients, and the result is the list of its
operators, each serialized, in its order, paired with its input-gradient list unchanged. -/
theorem get_gradient_defs_cases (env : GradientEnv) (op_def : String)
    (output_gradients : List GradientWrapper) :
    (env.ParseOperatorDef op_def = none →
      get_gradient_defs env op_def output_gradients =
        (.error (.enforce "def.ParseFromString(op_def)" ""), [])) ∧
    (∀ opDef, env.ParseOperatorDef op_def = some opDef →
      opDef.type ∉ env.GradientRegistryKeys →
      get_gradient_defs env op_def output_gradients =
        (.error (.enforce "caffe2::GradientRegistry()->Has(def.type())" ""), [])) ∧
    (∀ opDef gradMeta, env.ParseOperatorDef op_def = some opDef →
      opDef.type ∈ env.GradientRegistryKeys →
      env.GetGradientForOp opDef output_gradients = .ok gradMeta →
      get_gradient_defs env op_def output_gradients =
        (.ok (gradMeta.ops_.map env.SerializeAsString, gradMeta.g_input_),
          [{ opDef := opDef, g_output := output_gradients }])) := by
  refine ⟨?_, ?_, ?_⟩
  · intro hp
    simp [get_gradient_defs, hp]
  · intro opDef hp hk
    simp [get_gradient_defs, hp, hk]
  · intro opDef gradMeta hp hk hg
    simp [get_gradient_defs, hp, hk, hg, foldl_serialize]

/-- The three cases of C11 in the build that registers a gradient for `Relu` only: bytes
that do not decode, the unregistered type `Conv`, and the registered type `Relu`. -/
theorem get_gradient_defs_cases_witness :
    get_gradient_defs GradientEnv.reluOnly "Relu" [] =
      (.error (.enforce "def.ParseFromString(op_def)" ""), []) ∧
    get_gradient_defs GradientEnv.reluOnly "Conv,X,Y"
        [{ dense_ := "Y_grad", indices_ := "", values_ := "" }] =
      (.error (.enforce "caffe2::GradientRegistry()->Has(def.type())" ""), []) ∧
    get_gradient_defs GradientEnv.reluOnly "Relu,X,Y"
        [{ dense_ := "Y_grad", indices_ := "", values_ := "" }] =
      (.ok (["ReluGradient,Y,Y_grad,X_grad"],
          [{ dense_ := "X_grad", indices_ := "", values_ := "" }]),
        [{ opDef :=
            { type := "Relu", input := ["X"], output := ["Y"], arg := [],
              device_option := none }
           g_output := [{ dense_ := "Y_grad", indices_ := "", values_ := "" }] }]) :=
  ⟨(get_gradient_defs_cases GradientEnv.reluOnly "Relu" []).1 rfl,
    (get_gradient_defs_cases GradientEnv.reluOnly "Conv,X,Y"
      [{ dense_ := "Y_grad", indices_ := "", values_ := "" }]).2.1
      { type := "Conv", input := ["X"], output := ["Y"], arg := [], device_option := none }
      rfl (by decide),
    (get_gradient_defs_cases GradientEnv.reluOnly "Relu,X,Y"
      [{ dense_ := "Y_grad", indices_ := "", values_ := "" }]).2.2
      { type := "Relu", input := ["X"], output := ["Y"], arg := [], device_option := none }
      { ops_ :=
          [{ type := "ReluGradient", input := ["Y", "Y_grad"], output := ["X_grad"], arg := [],
             device_option := none }]
        g_input_ := [{ dense_ := "X_grad", indices_ := "", values_ := "" }] }
      rfl (by decide) rfl⟩

end Caffe2
